import Mathlib

/-!
Verification development for the arbit-bot arbitrage scanner.

Numbers are modelled as rationals (`ℚ`); JavaScript `Map`s keyed by strings
are modelled either as functions `String → Option α` (when only lookup,
update and delete are used) or as insertion-ordered association lists (when
the code iterates over entries). JavaScript truthiness of optional numeric
fields (`x || d`) is modelled by `orDefault`, which falls back on `none`
and on `0`.
-/

namespace ArbitBot

/-- JS `Number.prototype.toFixed(digits)` followed by `Number(...)`:
rounding to `digits` decimal places. -/
def jsToFixed (digits : ℕ) (q : ℚ) : ℚ :=
  (round (q * (10 : ℚ) ^ digits) : ℤ) / (10 : ℚ) ^ digits

/-- JS `x || d` for an optional numeric field: `undefined` and `0` are falsy. -/
def orDefault (x : Option ℚ) (d : ℚ) : ℚ :=
  match x with
  | none => d
  | some q => if q = 0 then d else q

/-- JS truthiness of an optional numeric field. -/
def truthy (x : Option ℚ) : Bool :=
  match x with
  | none => false
  | some q => decide (q ≠ 0)

/-- Lookup in an insertion-ordered association list (JS `Map.get`). -/
def assocGet {α : Type} (l : List (String × α)) (k : String) : Option α :=
  (l.find? (fun p => p.1 = k)).map Prod.snd

/-- Update in an insertion-ordered association list (JS `Map.set`):
an existing key keeps its position, a new key is appended. -/
def assocSet {α : Type} (l : List (String × α)) (k : String) (v : α) :
    List (String × α) :=
  if (l.find? (fun p => p.1 = k)).isSome then
    l.map (fun p => if p.1 = k then (k, v) else p)
  else
    l ++ [(k, v)]

/-! ## BalanceManager (src/unnamed/part_010) -/

namespace BalanceManager

/-- `Balance` record from part_010. -/
structure Balance where
  free : ℚ
  used : ℚ
  total : ℚ
deriving DecidableEq

/-- The mutable state of `BalanceManager`: per-exchange per-currency balances,
the lock map `exchange:currency -> Set<tradeId>` and the constructor
parameter `minBalanceThreshold`. -/
structure BalanceState where
  balances : String → String → Option Balance
  locks : String → Option (List String)
  minBalanceThreshold : ℚ

/-- `getLockKey(exchange, currency)`. -/
def getLockKey (exchange currency : String) : String :=
  exchange ++ ":" ++ currency

/-- `getBalance(exchange, currency)`. -/
def getBalance (s : BalanceState) (exchange currency : String) :
    Option Balance :=
  s.balances exchange currency

/-- The trade ids of the lock set stored for `(exchange, currency)`
(empty when the key is absent). -/
def locksFor (s : BalanceState) (exchange currency : String) : List String :=
  (s.locks (getLockKey exchange currency)).getD []

/-- `hasAvailableBalance(exchange, currency, requiredAmount)`: the locked
amount is the SIZE of the lock set times the requested amount (the code
does not remember the amount each lock was taken for). -/
def hasAvailableBalance (s : BalanceState) (exchange currency : String)
    (requiredAmount : ℚ) : Bool :=
  match getBalance s exchange currency with
  | none => false
  | some balance =>
    let lockedAmount : ℚ :=
      ((locksFor s exchange currency).length : ℚ) * requiredAmount
    let availableAmount := balance.free - lockedAmount
    decide (requiredAmount ≤ availableAmount)

/-- `lockBalance(tradeId, exchange, currency, amount)`: returns whether the
lock was granted together with the new state. A granted lock adds the
trade id to the per-key set (JS `Set.add`: no effect when already present). -/
def lockBalance (tradeId exchange currency : String) (amount : ℚ)
    (s : BalanceState) : Bool × BalanceState :=
  if hasAvailableBalance s exchange currency amount then
    let key := getLockKey exchange currency
    let current := (s.locks key).getD []
    let updated := if tradeId ∈ current then current else current ++ [tradeId]
    (true,
      { s with locks := fun k => if k = key then some updated else s.locks k })
  else
    (false, s)

/-- `unlockBalance(tradeId, exchange, currency)`: removes the trade id from
the per-key set and deletes the key once the set is empty. -/
def unlockBalance (tradeId exchange currency : String) (s : BalanceState) :
    BalanceState :=
  let key := getLockKey exchange currency
  match s.locks key with
  | none => s
  | some l =>
    let remaining := l.erase tradeId
    if remaining.length = 0 then
      { s with locks := fun k => if k = key then none else s.locks k }
    else
      { s with locks := fun k => if k = key then some remaining else s.locks k }

/-- `getAvailableAmount(exchange, currency)`: subtracts the NUMBER of locks
times `minBalanceThreshold` from the free balance, clamped at 0. -/
def getAvailableAmount (s : BalanceState) (exchange currency : String) : ℚ :=
  match getBalance s exchange currency with
  | none => 0
  | some balance =>
    let lockedCount := (locksFor s exchange currency).length
    max 0 (balance.free - (lockedCount : ℚ) * s.minBalanceThreshold)

/-- Definition following the claim's wording (not the code): the available
amount of a key is the free balance minus the SUM of the amounts of the
active locks for that key. -/
def claimAvailable (free : ℚ) (activeLockAmounts : List ℚ) : ℚ :=
  free - activeLockAmounts.sum

end BalanceManager

/-! ## Shared market-data types (src/src/types) -/

/-- `ExchangePrice` (src/src/types): `volume`, `bid`, `ask` are optional. -/
structure ExchangePrice where
  exchange : String
  symbol : String
  price : ℚ
  timestamp : ℤ
  volume : Option ℚ
  bid : Option ℚ
  ask : Option ℚ
deriving DecidableEq

/-- `OrderBookMetrics` (src/src/types): the normalized top-N book a detector
consumes; `bids`/`asks` are (price, volume) ladders. -/
structure OrderBookMetrics where
  symbol : String
  exchange : String
  bids : List (ℚ × ℚ)
  asks : List (ℚ × ℚ)
  midPrice : ℚ
  spread : ℚ
  spreadPercent : ℚ
  totalBidVolume : ℚ
  totalAskVolume : ℚ
  timestamp : ℤ
  updateId : ℤ
deriving DecidableEq

/-- Fee breakdown record `{ buy, sell, total }`. -/
structure FeeInfo where
  buy : ℚ
  sell : ℚ
  total : ℚ
deriving DecidableEq

/-- `ArbitrageOpportunity` (src/src/types/arbitrage.ts). -/
structure ArbitrageOpportunity where
  id : String
  symbol : String
  buyExchange : String
  sellExchange : String
  buyPrice : ℚ
  sellPrice : ℚ
  profitPercent : ℚ
  profitAmount : ℚ
  volume : ℚ
  timestamp : ℤ
  fees : FeeInfo
  buySlippage : ℚ
  sellSlippage : ℚ
  effectiveBuyPrice : ℚ
  effectiveSellPrice : ℚ
  confidence : ℚ
  liquidityScore : ℚ
  spreadImpact : ℚ
  availableLiquidity : Option ℚ
  recommendedTradeSize : Option ℚ
  netProfitAfterSlippage : ℚ
  profitPercentAfterSlippage : ℚ
deriving DecidableEq

/-! ## ArbitrageService — the cross-venue detector
(second document of src/src/services/ArbitrageService.ts) -/

namespace ArbitrageService

/-- `ArbitrageConfig` fields the detector reads. -/
structure ArbConfig where
  minProfitPercent : ℚ
  maxInvestment : ℚ
deriving DecidableEq

/-- Private constant `minLiquidity = 1000`. -/
def minLiquidity : ℚ := 1000

/-- Private constant `minConfidence = 60`. -/
def minConfidence : ℚ := 60

/-- Private constant `maxSlippagePercent = 1.0`. -/
def maxSlippagePercent : ℚ := 1

/-- Private constant `orderBookMaxAge = 10000` ms. -/
def orderBookMaxAge : ℤ := 10000

/-- The detector state: opportunity map (by id), price map and book-metrics
map, both keyed by the string `exchange:symbol`. -/
structure ArbState where
  opportunities : List (String × ArbitrageOpportunity)
  prices : List (String × ExchangePrice)
  orderBooks : List (String × OrderBookMetrics)

/-- `getKey(exchange, symbol)`. -/
def getKey (exchange symbol : String) : String :=
  exchange ++ ":" ++ symbol

/-- `getOrderBook(exchange, symbol)`. -/
def getOrderBook (st : ArbState) (exchange symbol : String) :
    Option OrderBookMetrics :=
  assocGet st.orderBooks (getKey exchange symbol)

/-- `areOrderBooksStale(buyOrderBook, sellOrderBook)`. -/
def areOrderBooksStale (now : ℤ) (buyOrderBook sellOrderBook : OrderBookMetrics) :
    Bool :=
  decide (orderBookMaxAge < now - buyOrderBook.timestamp) ||
    decide (orderBookMaxAge < now - sellOrderBook.timestamp)

/-- `getValidOrderBooks(buyPrice, sellPrice)`. -/
def getValidOrderBooks (st : ArbState) (now : ℤ)
    (buyPrice sellPrice : ExchangePrice) :
    Option (OrderBookMetrics × OrderBookMetrics) :=
  match getOrderBook st buyPrice.exchange buyPrice.symbol,
        getOrderBook st sellPrice.exchange sellPrice.symbol with
  | some buyOrderBook, some sellOrderBook =>
    if areOrderBooksStale now buyOrderBook sellOrderBook then none
    else some (buyOrderBook, sellOrderBook)
  | _, _ => none

/-- `calculateAvailableLiquidity`. -/
def calculateAvailableLiquidity (buyOrderBook sellOrderBook : OrderBookMetrics)
    (buyPrice sellPrice : ExchangePrice) : ℚ :=
  min (buyOrderBook.totalAskVolume * buyPrice.price)
    (sellOrderBook.totalBidVolume * sellPrice.price)

/-- `isLiquiditySufficient`. -/
def isLiquiditySufficient (liquidity : ℚ) : Bool :=
  decide (minLiquidity ≤ liquidity)

/-- `calculateTradeParameters`: returns `(tradeValueUSD, tradeAmount)`;
`LIQUIDITY_USAGE_RATIO = 0.1`. -/
def calculateTradeParameters (cfg : ArbConfig) (liquidity buyPrice : ℚ) :
    ℚ × ℚ :=
  let tradeValueUSD := min cfg.maxInvestment (liquidity * (1 / 10))
  (tradeValueUSD, tradeValueUSD / buyPrice)

/-- The feasible payload of `SlippageResult`; the infeasible case
(`feasible: false`, `Infinity` fields) is modelled as `none` at use sites. -/
structure SlippageCore where
  slippage : ℚ
  effectivePrice : ℚ
deriving DecidableEq

/-- The level-consuming loop of `calculateSlippage`: returns the remaining
amount and the accumulated cost. -/
def fillOrders : List (ℚ × ℚ) → ℚ → ℚ → ℚ × ℚ
  | [], remainingAmount, totalCost => (remainingAmount, totalCost)
  | (price, volume) :: rest, remainingAmount, totalCost =>
    if remainingAmount ≤ 0 then (remainingAmount, totalCost)
    else
      let fillAmount := min remainingAmount volume
      fillOrders rest (remainingAmount - fillAmount)
        (totalCost + fillAmount * price)

/-- `calculateSlippage(orders, amount, marketPrice)`. -/
def calculateSlippage (orders : List (ℚ × ℚ)) (amount marketPrice : ℚ) :
    Option SlippageCore :=
  let r := fillOrders orders amount 0
  if 0 < r.1 then none
  else
    let effectivePrice := r.2 / amount
    some { slippage := |effectivePrice - marketPrice|, effectivePrice }

/-- `calculateBothSlippages`. -/
def calculateBothSlippages (buyOrderBook sellOrderBook : OrderBookMetrics)
    (tradeAmount : ℚ) (buyPrice sellPrice : ExchangePrice) :
    Option (SlippageCore × SlippageCore × ℚ) :=
  match calculateSlippage buyOrderBook.asks tradeAmount buyPrice.price,
        calculateSlippage sellOrderBook.bids tradeAmount sellPrice.price with
  | some buySlippage, some sellSlippage =>
    let totalPercent :=
      (buySlippage.slippage + sellSlippage.slippage) / buyPrice.price * 100
    if maxSlippagePercent < totalPercent then none
    else some (buySlippage, sellSlippage, totalPercent)
  | _, _ => none

/-- `calculateFees(buyExchange, sellExchange)`: static per-venue fee table
with default 0.1%. -/
def calculateFees (buyExchange sellExchange : String) : FeeInfo :=
  let feeOf := fun (exchange : String) =>
    if exchange = "binance" then (1 : ℚ) / 1000
    else if exchange = "coinbase" then 5 / 1000
    else if exchange = "kraken" then 26 / 10000
    else 1 / 1000
  { buy := feeOf buyExchange, sell := feeOf sellExchange,
    total := feeOf buyExchange + feeOf sellExchange }

/-- Result record of `calculateNetProfit`. -/
structure ProfitCalculation where
  grossProfit : ℚ
  netProfit : ℚ
  profitPercent : ℚ
  fees : FeeInfo
deriving DecidableEq

/-- `calculateNetProfit(slippageResult, tradeAmount, buyExchange, sellExchange)`. -/
def calculateNetProfit (buySlippage sellSlippage : SlippageCore)
    (tradeAmount : ℚ) (buyExchange sellExchange : String) :
    ProfitCalculation :=
  let fees := calculateFees buyExchange sellExchange
  let buyFee := buySlippage.effectivePrice * fees.buy
  let sellFee := sellSlippage.effectivePrice * fees.sell
  let grossProfit :=
    (sellSlippage.effectivePrice - buySlippage.effectivePrice) * tradeAmount
  let netProfit := grossProfit - buyFee - sellFee
  let investedAmount := buySlippage.effectivePrice * tradeAmount
  { grossProfit, netProfit,
    profitPercent := netProfit / investedAmount * 100,
    fees := { buy := fees.buy, sell := fees.sell,
              total := fees.buy + fees.sell } }

/-- Result record of `calculateQualityMetrics`. -/
structure QualityMetrics where
  confidence : ℚ
  liquidityScore : ℚ
  spreadImpact : ℚ
deriving DecidableEq

/-- `calculateQualityMetrics`: the weighted confidence score. -/
def calculateQualityMetrics (now : ℤ) (buyPrice sellPrice : ExchangePrice)
    (buyOrderBook sellOrderBook : OrderBookMetrics)
    (buySlippageData sellSlippageData : SlippageCore)
    (profitPercent totalLiquidity : ℚ) : QualityMetrics :=
  let buyAge : ℚ := ((now - buyPrice.timestamp : ℤ) : ℚ)
  let sellAge : ℚ := ((now - sellPrice.timestamp : ℤ) : ℚ)
  let ageFactor := max 0 (100 - (buyAge + sellAge) / 200)
  let liquidityScore := min 100 (totalLiquidity / minLiquidity * 100)
  let profitFactor := min 100 (profitPercent * 20)
  let avgSpreadPercent :=
    (buyOrderBook.spreadPercent + sellOrderBook.spreadPercent) / 2
  let spreadFactor := max 0 (100 - avgSpreadPercent * 100)
  let totalSlippagePercent :=
    (buySlippageData.slippage + sellSlippageData.slippage) / buyPrice.price * 100
  let slippageFactor := max 0 (100 - totalSlippagePercent * 50)
  let confidence :=
    ageFactor * (15 / 100) + liquidityScore * (30 / 100) +
    profitFactor * (25 / 100) + spreadFactor * (15 / 100) +
    slippageFactor * (15 / 100)
  { confidence := jsToFixed 2 confidence,
    liquidityScore := jsToFixed 2 liquidityScore,
    spreadImpact := jsToFixed 2 (avgSpreadPercent / profitPercent * 100) }

/-- `buildOpportunity`: assembles the full record (`id` stands for the
`crypto.randomUUID()` value). -/
def buildOpportunity (oid : String) (now : ℤ)
    (buyPrice sellPrice : ExchangePrice)
    (profitCalculation : ProfitCalculation)
    (buySlippage sellSlippage : SlippageCore)
    (metrics : QualityMetrics) (liquidity tradeAmount : ℚ) :
    ArbitrageOpportunity :=
  { id := oid
    symbol := buyPrice.symbol
    buyExchange := buyPrice.exchange
    sellExchange := sellPrice.exchange
    buyPrice := buyPrice.price
    sellPrice := sellPrice.price
    profitPercent := jsToFixed 4 profitCalculation.profitPercent
    profitAmount := jsToFixed 6 profitCalculation.netProfit
    volume := min (orDefault buyPrice.volume 0) (orDefault sellPrice.volume 0)
    timestamp := now
    fees := profitCalculation.fees
    buySlippage := buySlippage.slippage
    sellSlippage := sellSlippage.slippage
    effectiveBuyPrice := buySlippage.effectivePrice
    effectiveSellPrice := sellSlippage.effectivePrice
    confidence := metrics.confidence
    liquidityScore := metrics.liquidityScore
    spreadImpact := metrics.spreadImpact
    availableLiquidity := some (jsToFixed 2 liquidity)
    recommendedTradeSize := some tradeAmount
    netProfitAfterSlippage := jsToFixed 6 profitCalculation.netProfit
    profitPercentAfterSlippage := jsToFixed 4 profitCalculation.profitPercent }

/-- `calculateSimpleOpportunity`: low-confidence estimator used when order
books are missing or stale; emits confidence 50 and liquidityScore 50. -/
def calculateSimpleOpportunity (oid : String) (now : ℤ)
    (buyPrice sellPrice : ExchangePrice) : Option ArbitrageOpportunity :=
  if sellPrice.price ≤ buyPrice.price then none
  else
    let fees := calculateFees buyPrice.exchange sellPrice.exchange
    let buySlippage :=
      if truthy buyPrice.ask && truthy buyPrice.bid then
        (buyPrice.ask.getD 0 - buyPrice.bid.getD 0) / 2
      else buyPrice.price * (1 / 1000)
    let sellSlippage :=
      if truthy sellPrice.ask && truthy sellPrice.bid then
        (sellPrice.ask.getD 0 - sellPrice.bid.getD 0) / 2
      else sellPrice.price * (1 / 1000)
    let effectiveBuyPrice := buyPrice.price + buySlippage
    let effectiveSellPrice := sellPrice.price - sellSlippage
    let grossProfit := effectiveSellPrice - effectiveBuyPrice
    let netProfit :=
      grossProfit - effectiveBuyPrice * fees.buy - effectiveSellPrice * fees.sell
    let profitPercent := netProfit / effectiveBuyPrice * 100
    if profitPercent ≤ 0 then none
    else some
      { id := oid
        symbol := buyPrice.symbol
        buyExchange := buyPrice.exchange
        sellExchange := sellPrice.exchange
        buyPrice := buyPrice.price
        sellPrice := sellPrice.price
        profitPercent := jsToFixed 4 profitPercent
        profitAmount := jsToFixed 6 netProfit
        volume := min (orDefault buyPrice.volume 0) (orDefault sellPrice.volume 0)
        timestamp := now
        fees := { buy := fees.buy, sell := fees.sell,
                  total := fees.buy + fees.sell }
        buySlippage := buySlippage
        sellSlippage := sellSlippage
        effectiveBuyPrice := effectiveBuyPrice
        effectiveSellPrice := effectiveSellPrice
        confidence := 50
        liquidityScore := 50
        spreadImpact := 50
        availableLiquidity := none
        recommendedTradeSize := none
        netProfitAfterSlippage := jsToFixed 6 netProfit
        profitPercentAfterSlippage := jsToFixed 4 profitPercent }

/-- `calculateOpportunity(buyPrice, sellPrice)`: the full depth-aware
candidate computation, falling back to the simple estimator when either
book is missing or stale. -/
def calculateOpportunity (cfg : ArbConfig) (st : ArbState) (now : ℤ)
    (oid : String) (buyPrice sellPrice : ExchangePrice) :
    Option ArbitrageOpportunity :=
  if sellPrice.price ≤ buyPrice.price then none
  else
    match getValidOrderBooks st now buyPrice sellPrice with
    | none => calculateSimpleOpportunity oid now buyPrice sellPrice
    | some (buyOrderBook, sellOrderBook) =>
      let liquidity :=
        calculateAvailableLiquidity buyOrderBook sellOrderBook buyPrice sellPrice
      if ¬ isLiquiditySufficient liquidity then none
      else
        let tradeParams := calculateTradeParameters cfg liquidity buyPrice.price
        match calculateBothSlippages buyOrderBook sellOrderBook tradeParams.2
            buyPrice sellPrice with
        | none => none
        | some (buySlippage, sellSlippage, _totalPercent) =>
          let profitCalculation :=
            calculateNetProfit buySlippage sellSlippage tradeParams.2
              buyPrice.exchange sellPrice.exchange
          if profitCalculation.profitPercent ≤ 0 then none
          else
            let metrics :=
              calculateQualityMetrics now buyPrice sellPrice buyOrderBook
                sellOrderBook buySlippage sellSlippage
                profitCalculation.profitPercent liquidity
            if metrics.confidence < minConfidence then none
            else some (buildOpportunity oid now buyPrice sellPrice
              profitCalculation buySlippage sellSlippage metrics liquidity
              tradeParams.2)

/-- `isOpportunityValid(opportunity)`: the emission gate. -/
def isOpportunityValid (cfg : ArbConfig) (o : ArbitrageOpportunity) : Bool :=
  decide (cfg.minProfitPercent ≤ o.profitPercentAfterSlippage) &&
  decide (minConfidence ≤ o.confidence) &&
  decide ((50 : ℚ) ≤ o.liquidityScore) &&
  decide (0 < o.netProfitAfterSlippage)

/-- The ordered pair enumeration of `checkArbitrageOpportunities`: for each
`i < j` the pair `(pᵢ, pⱼ)` then `(pⱼ, pᵢ)`. -/
def candidatePairs : List ExchangePrice → List (ExchangePrice × ExchangePrice)
  | [] => []
  | p :: rest =>
    (rest.foldr (fun q acc => (p, q) :: (q, p) :: acc) []) ++ candidatePairs rest

/-- The non-null candidates of `checkArbitrageOpportunities`; `idGen` stands
for the fresh-UUID supply. -/
def candidateList (cfg : ArbConfig) (st : ArbState) (now : ℤ)
    (idGen : ℕ → String) (relevantPrices : List ExchangePrice) :
    List ArbitrageOpportunity :=
  (candidatePairs relevantPrices).enum.filterMap
    (fun x => calculateOpportunity cfg st now (idGen x.1) x.2.1 x.2.2)

/-- The opportunities `checkArbitrageOpportunities(symbol)` emits via the
`opportunityFound` event: the candidates that pass `isOpportunityValid`. -/
def emittedOpportunities (cfg : ArbConfig) (st : ArbState) (now : ℤ)
    (idGen : ℕ → String) (symbol : String) : List ArbitrageOpportunity :=
  let relevantPrices :=
    (st.prices.map Prod.snd).filter (fun p => p.symbol = symbol)
  if relevantPrices.length < 2 then []
  else
    (candidateList cfg st now idGen relevantPrices).filter
      (fun o => isOpportunityValid cfg o)

/-- `findSimilarOpportunity(opportunity)`: the key of the first stored
opportunity with the identical (symbol, buyExchange, sellExchange) triple. -/
def findSimilarOpportunity (opportunities : List (String × ArbitrageOpportunity))
    (o : ArbitrageOpportunity) : Option String :=
  ((opportunities.find? (fun p =>
    p.2.symbol = o.symbol ∧ p.2.buyExchange = o.buyExchange ∧
      p.2.sellExchange = o.sellExchange)).map Prod.fst)

/-- `addOpportunity(opportunity)`: dedup by triple — replace only on strictly
higher confidence; otherwise (and without garbage collection) return early.
A new triple is inserted under its own id, then entries older than five
minutes are collected. -/
def addOpportunity (now : ℤ) (o : ArbitrageOpportunity)
    (opportunities : List (String × ArbitrageOpportunity)) :
    List (String × ArbitrageOpportunity) :=
  match findSimilarOpportunity opportunities o with
  | some existingKey =>
    match assocGet opportunities existingKey with
    | some existing =>
      if existing.confidence < o.confidence then
        assocSet opportunities existingKey o
      else opportunities
    | none => opportunities
  | none =>
    let inserted := assocSet opportunities o.id o
    inserted.filter (fun p => ¬ (p.2.timestamp < now - 5 * 60 * 1000))

end ArbitrageService

/-! ## TriangularBybitService (src/src/services/TriangularBybitService.ts) -/

namespace TriangularBybit

/-- Order side of one leg. -/
inductive Direction where
  | buy : Direction
  | sell : Direction
deriving DecidableEq

/-- The `TriangularConfig` fields the detector reads. -/
structure TriConfig where
  minProfitPercent : ℚ
  minConfidence : ℚ
  maxSlippage : ℚ
  maxSlippagePerTrade : ℚ
deriving DecidableEq

/-- `TriangularPath`. -/
structure TriangularPath where
  symbols : List String
  directions : List Direction
  minAmount : ℚ
deriving DecidableEq

/-- `PriceCache`: last tick plus (optionally) the cached book metrics. -/
structure PriceCache where
  price : ExchangePrice
  orderBook : Option OrderBookMetrics
deriving DecidableEq

/-- `TriangularOpportunity` (src/src/types/triangular.ts); the nested
`fees`/`slippage` records are flattened into `feesTotal`, `feesPerTrade`,
`slippageTotal`, `slippagePerTrade`. -/
structure TriangularOpportunity where
  id : String
  exchange : String
  path : List String
  directions : List Direction
  prices : List ℚ
  effectivePrices : List ℚ
  startAmount : ℚ
  endAmount : ℚ
  profitPercent : ℚ
  profitUSDT : ℚ
  feesTotal : ℚ
  feesPerTrade : List ℚ
  confidence : ℚ
  executionTime : ℤ
  slippageTotal : ℚ
  slippagePerTrade : List ℚ
  timestamp : ℤ
  valid : Bool
deriving DecidableEq

/-- Private constant `bybitTakerFee = 0.001`. -/
def bybitTakerFee : ℚ := 1 / 1000

/-- The level-consuming loop of `calculatePriceFromOrderBook`: returns
`(remainingAmount, totalCost, totalVolume)`. -/
def fillOrdersTri : List (ℚ × ℚ) → ℚ → ℚ → ℚ → ℚ × ℚ × ℚ
  | [], remainingAmount, totalCost, totalVolume =>
    (remainingAmount, totalCost, totalVolume)
  | (orderPrice, orderVolume) :: rest, remainingAmount, totalCost, totalVolume =>
    if remainingAmount ≤ 0 then (remainingAmount, totalCost, totalVolume)
    else
      let fillAmount := min remainingAmount orderVolume
      fillOrdersTri rest (remainingAmount - fillAmount)
        (totalCost + fillAmount * orderPrice) (totalVolume + fillAmount)

/-- `calculatePriceFromOrderBook(orderBook, direction, amountUSDT,
marketPrice)`: depth-walked effective price and relative slippage. -/
def calculatePriceFromOrderBook (orderBook : OrderBookMetrics)
    (direction : Direction) (amountUSDT marketPrice : ℚ) :
    Option (ℚ × ℚ) :=
  let orders := match direction with
    | .buy => orderBook.asks
    | .sell => orderBook.bids
  let remainingAmount := amountUSDT / marketPrice
  let r := fillOrdersTri orders remainingAmount 0 0
  if 0 < r.1 then none
  else
    let effectivePrice := r.2.1 / r.2.2
    some (effectivePrice, |effectivePrice - marketPrice| / marketPrice)

/-- `calculateEffectivePrice(cached, direction, amount)`: depth-walk when a
non-empty book is cached, otherwise top-of-book quote with a
`±0.05%`-of-last fallback. -/
def calculateEffectivePrice (cached : PriceCache) (direction : Direction)
    (amount : ℚ) : Option (ℚ × ℚ) :=
  let price := cached.price
  match cached.orderBook with
  | some orderBook =>
    if orderBook.bids.length > 0 ∧ orderBook.asks.length > 0 then
      calculatePriceFromOrderBook orderBook direction amount price.price
    else
      match direction with
      | .buy =>
        let effectivePrice := orDefault price.ask (price.price * (10005 / 10000))
        some (effectivePrice, |effectivePrice - price.price| / price.price)
      | .sell =>
        let effectivePrice := orDefault price.bid (price.price * (9995 / 10000))
        some (effectivePrice, |price.price - effectivePrice| / price.price)
  | none =>
    match direction with
    | .buy =>
      let effectivePrice := orDefault price.ask (price.price * (10005 / 10000))
      some (effectivePrice, |effectivePrice - price.price| / price.price)
    | .sell =>
      let effectivePrice := orDefault price.bid (price.price * (9995 / 10000))
      some (effectivePrice, |price.price - effectivePrice| / price.price)

/-- Accumulated result of the per-leg loop of `calculateOpportunity`. -/
structure LegRun where
  endAmount : ℚ
  prices : List ℚ
  effectivePrices : List ℚ
  feesPerTrade : List ℚ
  slippagePerTrade : List ℚ
deriving DecidableEq

/-- The per-leg loop of `calculateOpportunity`: convert the running amount
through each leg (buy: divide, sell: multiply by the effective price), then
deduct the taker fee from the result; abort on an infeasible leg or when a
leg's slippage exceeds `maxSlippagePerTrade`. -/
def runLegs (cfg : TriConfig) :
    List (PriceCache × Direction) → ℚ → Option LegRun
  | [], amount =>
    some { endAmount := amount, prices := [], effectivePrices := [],
           feesPerTrade := [], slippagePerTrade := [] }
  | (cached, direction) :: rest, amount =>
    match calculateEffectivePrice cached direction amount with
    | none => none
    | some (effectivePrice, slippage) =>
      if cfg.maxSlippagePerTrade < slippage then none
      else
        let converted := match direction with
          | .buy => amount / effectivePrice
          | .sell => amount * effectivePrice
        let fee := converted * bybitTakerFee
        match runLegs cfg rest (converted - fee) with
        | none => none
        | some r =>
          some { endAmount := r.endAmount,
                 prices := cached.price.price :: r.prices,
                 effectivePrices := effectivePrice :: r.effectivePrices,
                 feesPerTrade := fee :: r.feesPerTrade,
                 slippagePerTrade := slippage :: r.slippagePerTrade }

/-- `calculateConfidence(pricesData, slippagePerTrade, profitPercent)`:
score starts at 100; age, slippage and profit adjustments; the
book-presence/spread penalty is accumulated per leg (5 without a book,
`min(10, spreadPercent × 100)` with one), then DIVIDED by the number of
legs before being capped at 20; finally clamped to [0, 100]. -/
def calculateConfidence (cfg : TriConfig) (now : ℤ)
    (pricesData : List PriceCache) (slippagePerTrade : List ℚ)
    (profitPercent : ℚ) : ℚ :=
  let score : ℚ := 100
  let avgAge :=
    ((pricesData.map (fun p => ((now - p.price.timestamp : ℤ) : ℚ))).sum) /
      (pricesData.length : ℚ)
  let agePenalty := min 20 (avgAge / 100)
  let score := score - agePenalty
  let totalSlippage := slippagePerTrade.sum
  let slippagePenalty := totalSlippage / cfg.maxSlippage * 30
  let score := score - slippagePenalty
  let profitBonus := min 20 (profitPercent * 4)
  let score := score + profitBonus
  let liquidityPenalty :=
    (pricesData.map (fun cached =>
      match cached.orderBook with
      | none => (5 : ℚ)
      | some orderBook => min 10 (orderBook.spreadPercent * 100))).sum
  let score := score - min 20 (liquidityPenalty / (pricesData.length : ℚ))
  max 0 (min 100 score)

/-- `calculateOpportunity(path, pricesData, startTime)`; `oid` stands for
`crypto.randomUUID()`, `now` for `Date.now()`. -/
def calculateOpportunity (cfg : TriConfig) (now : ℤ) (path : TriangularPath)
    (pricesData : List PriceCache) (startTime : ℤ) (oid : String) :
    Option TriangularOpportunity :=
  match runLegs cfg (pricesData.zip path.directions) path.minAmount with
  | none => none
  | some r =>
    let profitUSDT := r.endAmount - path.minAmount
    let profitPercent := profitUSDT / path.minAmount * 100
    if profitPercent ≤ 0 then none
    else
      let confidence :=
        calculateConfidence cfg now pricesData r.slippagePerTrade profitPercent
      let totalSlippage := r.slippagePerTrade.sum
      if cfg.maxSlippage < totalSlippage then none
      else some
        { id := oid
          exchange := "bybit"
          path := path.symbols
          directions := path.directions
          prices := r.prices
          effectivePrices := r.effectivePrices
          startAmount := path.minAmount
          endAmount := r.endAmount
          profitPercent := jsToFixed 4 profitPercent
          profitUSDT := jsToFixed 2 profitUSDT
          feesTotal := jsToFixed 2 r.feesPerTrade.sum
          feesPerTrade := r.feesPerTrade.map (jsToFixed 2)
          confidence := jsToFixed 2 confidence
          executionTime := now - startTime
          slippageTotal := jsToFixed 4 totalSlippage
          slippagePerTrade := r.slippagePerTrade.map (jsToFixed 4)
          timestamp := now
          valid := true }

/-- Definition following the spec's wording for the leg simulation: on a buy
leg divide the amount by the effective price, on a sell leg multiply, then
deduct a 0.10% taker fee from the resulting amount. -/
def simulateLegs : ℚ → List (Direction × ℚ) → ℚ
  | amount, [] => amount
  | amount, (direction, effectivePrice) :: rest =>
    let converted := match direction with
      | .buy => amount / effectivePrice
      | .sell => amount * effectivePrice
    simulateLegs (converted - converted * (1 / 1000)) rest

/-- Definition following the claim's wording for the book-presence/spread
confidence factor: the score is reduced by up to 20 points, computed as 5
points per leg without a book and `min(10, spreadPercent × 100)` per leg
with one (no division by the number of legs). -/
def claimBookPenalty (pricesData : List PriceCache) : ℚ :=
  min 20 ((pricesData.map (fun cached =>
    match cached.orderBook with
    | none => (5 : ℚ)
    | some orderBook => min 10 (orderBook.spreadPercent * 100))).sum)

/-- The confidence score as the claim describes it: identical to
`calculateConfidence` except that the book-presence/spread penalty is
`claimBookPenalty` (the per-leg sum capped at 20, not averaged). -/
def claimConfidence (cfg : TriConfig) (now : ℤ)
    (pricesData : List PriceCache) (slippagePerTrade : List ℚ)
    (profitPercent : ℚ) : ℚ :=
  let avgAge :=
    ((pricesData.map (fun p => ((now - p.price.timestamp : ℤ) : ℚ))).sum) /
      (pricesData.length : ℚ)
  max 0 (min 100
    (100 - min 20 (avgAge / 100) -
      slippagePerTrade.sum / cfg.maxSlippage * 30 +
      min 20 (profitPercent * 4) - claimBookPenalty pricesData))

end TriangularBybit

/-! ## RiskManager (src/src/services/RiskManager.ts) -/

namespace RiskManager

/-- `OpportunityType`. -/
inductive OpportunityType where
  | crossExchange : OpportunityType
  | triangular : OpportunityType
deriving DecidableEq

/-- Per-kind trading configuration (`crossExchange` / `triangular` blocks of
`TradingConfig`). -/
structure KindConfig where
  enabled : Bool
  minProfitPercent : ℚ
  maxPositionSize : ℚ
  maxConcurrentTrades : ℤ
deriving DecidableEq

/-- `riskManagement` block of `TradingConfig`. `emergencyStop` is mutable
(set by `triggerEmergencyStop`). -/
structure RiskManagementConfig where
  maxDailyLoss : ℚ
  maxDailyTrades : ℕ
  emergencyStop : Bool
  blacklistedSymbols : List String
  blacklistedExchanges : List String
deriving DecidableEq

/-- `TradingConfig`. -/
structure TradingConfig where
  enabled : Bool
  crossExchange : KindConfig
  triangular : KindConfig
  riskManagement : RiskManagementConfig
deriving DecidableEq

/-- The mutable state of `RiskManager`: daily counters, per-kind active-trade
counters (JS map read with `get(type) || 0`) and the (mutated) config. -/
structure RiskState where
  dailyTrades : ℕ
  dailyLoss : ℚ
  activeTrades : OpportunityType → ℤ
  lastResetDate : String
  config : TradingConfig

/-- A candidate handed to `checkOpportunity`. In the source the `type`
argument always matches the opportunity's kind (the per-kind checks cast
accordingly), so the kind is carried by the constructor. -/
inductive RiskOpportunity where
  | cross : ArbitrageOpportunity → RiskOpportunity
  | tri : TriangularBybit.TriangularOpportunity → RiskOpportunity

/-- The kind of a candidate (the `type` argument of `checkOpportunity`). -/
def kindOf : RiskOpportunity → OpportunityType
  | .cross _ => .crossExchange
  | .tri _ => .triangular

/-- The per-kind config block selected by `type`. -/
def kindConfig (config : TradingConfig) : OpportunityType → KindConfig
  | .crossExchange => config.crossExchange
  | .triangular => config.triangular

/-- `opportunity.profitPercent` of either kind. -/
def profitPercentOf : RiskOpportunity → ℚ
  | .cross o => o.profitPercent
  | .tri o => o.profitPercent

/-- `checkBlacklists(opportunity, type)`. -/
def checkBlacklists (config : TradingConfig) : RiskOpportunity → Bool
  | .cross o =>
    ¬ (config.riskManagement.blacklistedSymbols.contains o.symbol ||
       config.riskManagement.blacklistedExchanges.contains o.buyExchange ||
       config.riskManagement.blacklistedExchanges.contains o.sellExchange)
  | .tri o =>
    ¬ (o.path.any (fun symbol =>
         config.riskManagement.blacklistedSymbols.contains symbol) ||
       config.riskManagement.blacklistedExchanges.contains o.exchange)

/-- `checkMinProfit(opportunity, type)`. -/
def checkMinProfit (config : TradingConfig) (opp : RiskOpportunity) : Bool :=
  decide ((kindConfig config (kindOf opp)).minProfitPercent ≤
    profitPercentOf opp)

/-- `symbol.split('/')` (modelled on the character list, which is
equivalent for the slash separator). -/
def splitSlash (symbol : String) : List String :=
  (symbol.data.splitOn (Char.ofNat 47)).map (fun l => String.mk l)

/-- Base component of `BASE/QUOTE` (`symbol.split('/')[0]`). -/
def baseOf (symbol : String) : String := (splitSlash symbol).headD ""

/-- Quote component of `BASE/QUOTE` (`symbol.split('/')[1]`). -/
def quoteOf (symbol : String) : String := ((splitSlash symbol).getD 1 "")

/-- `checkBalances(opportunity, type)`: quote on the buy venue (falling back
to the kind's `maxPositionSize` on a falsy trade size) and base on the sell
venue for cross-exchange; start USDT for triangular. -/
def checkBalances (bs : BalanceManager.BalanceState) (config : TradingConfig) :
    RiskOpportunity → Bool
  | .cross o =>
    let buyAmount := orDefault o.recommendedTradeSize
      config.crossExchange.maxPositionSize
    if ¬ BalanceManager.hasAvailableBalance bs o.buyExchange
        (quoteOf o.symbol) buyAmount then false
    else
      BalanceManager.hasAvailableBalance bs o.sellExchange (baseOf o.symbol)
        (buyAmount / o.buyPrice)
  | .tri o =>
    let startAmount :=
      if o.startAmount = 0 then config.triangular.maxPositionSize
      else o.startAmount
    BalanceManager.hasAvailableBalance bs o.exchange "USDT" startAmount

/-- `checkPositionSize(opportunity, type)`. -/
def checkPositionSize (config : TradingConfig) : RiskOpportunity → Bool
  | .cross o =>
    decide ((o.recommendedTradeSize.getD 0) ≤
      config.crossExchange.maxPositionSize)
  | .tri o => decide (o.startAmount ≤ config.triangular.maxPositionSize)

/-- `checkConcurrentTrades(type)`. -/
def checkConcurrentTrades (rm : RiskState) (ty : OpportunityType) : Bool :=
  decide (rm.activeTrades ty < (kindConfig rm.config ty).maxConcurrentTrades)

/-- `triggerEmergencyStop()`. -/
def triggerEmergencyStop (rm : RiskState) : RiskState :=
  { rm with config := { rm.config with
      riskManagement := { rm.config.riskManagement with emergencyStop := true } } }

/-- `checkDailyLimits()`: the trade-count cap is checked first and returns
without touching the stop flag; only a breached loss cap triggers the
emergency stop. -/
def checkDailyLimits (rm : RiskState) : Bool × RiskState :=
  if rm.config.riskManagement.maxDailyTrades ≤ rm.dailyTrades then (false, rm)
  else if rm.config.riskManagement.maxDailyLoss ≤ rm.dailyLoss then
    (false, triggerEmergencyStop rm)
  else (true, rm)

/-- `resetDailyCountersIfNeeded()` with `today` standing for the current UTC
date string. -/
def resetDailyCountersIfNeeded (today : String) (rm : RiskState) : RiskState :=
  if rm.lastResetDate ≠ today then
    { rm with dailyTrades := 0, dailyLoss := 0, lastResetDate := today }
  else rm

/-- `RiskCheckResult.checks`. -/
structure RiskChecks where
  balanceCheck : Bool
  positionSizeCheck : Bool
  dailyLimitCheck : Bool
  concurrentTradesCheck : Bool
  blacklistCheck : Bool
  minProfitCheck : Bool
deriving DecidableEq

/-- `RiskCheckResult`. -/
structure RiskCheckResult where
  approved : Bool
  reasons : List String
  checks : RiskChecks
deriving DecidableEq

/-- The all-false `checks` record the early returns carry. -/
def allFalseChecks : RiskChecks :=
  { balanceCheck := false, positionSizeCheck := false, dailyLimitCheck := false,
    concurrentTradesCheck := false, blacklistCheck := false,
    minProfitCheck := false }

/-- `checkOpportunity(opportunity, type)`: lazily resets the daily counters,
short-circuits on the global flag, the emergency stop and the kind flag,
then collects the six named checks (the loss-cap check may set the
emergency stop as a side effect). -/
def checkOpportunity (opp : RiskOpportunity) (today : String)
    (bs : BalanceManager.BalanceState) (rm : RiskState) :
    RiskCheckResult × RiskState :=
  let rm := resetDailyCountersIfNeeded today rm
  if ¬ rm.config.enabled then
    ({ approved := false, reasons := ["Trading is globally disabled"],
       checks := allFalseChecks }, rm)
  else if rm.config.riskManagement.emergencyStop then
    ({ approved := false, reasons := ["Emergency stop is active"],
       checks := allFalseChecks }, rm)
  else if ¬ (kindConfig rm.config (kindOf opp)).enabled then
    ({ approved := false, reasons := ["type trading is disabled"],
       checks := allFalseChecks }, rm)
  else
    let blacklistCheck := checkBlacklists rm.config opp
    let minProfitCheck := checkMinProfit rm.config opp
    let balanceCheck := checkBalances bs rm.config opp
    let positionSizeCheck := checkPositionSize rm.config opp
    let concurrentTradesCheck := checkConcurrentTrades rm (kindOf opp)
    let dl := checkDailyLimits rm
    let checks : RiskChecks :=
      { balanceCheck, positionSizeCheck, dailyLimitCheck := dl.1,
        concurrentTradesCheck, blacklistCheck, minProfitCheck }
    let reasons :=
      (if ¬ blacklistCheck then ["Symbol or exchange is blacklisted"] else []) ++
      (if ¬ minProfitCheck then ["Profit below minimum"] else []) ++
      (if ¬ balanceCheck then ["Insufficient balance"] else []) ++
      (if ¬ positionSizeCheck then ["Position size exceeds maximum"] else []) ++
      (if ¬ concurrentTradesCheck then ["Maximum concurrent trades reached"]
        else []) ++
      (if ¬ dl.1 then ["Daily trading limits reached"] else [])
    let approved := balanceCheck && positionSizeCheck && dl.1 &&
      concurrentTradesCheck && blacklistCheck && minProfitCheck
    ({ approved, reasons, checks }, dl.2)

/-- `incrementActiveTrades(type)`. -/
def incrementActiveTrades (ty : OpportunityType) (rm : RiskState) : RiskState :=
  { rm with activeTrades := fun t =>
      if t = ty then rm.activeTrades ty + 1 else rm.activeTrades t }

/-- `decrementActiveTrades(type)`: clamped at zero. -/
def decrementActiveTrades (ty : OpportunityType) (rm : RiskState) : RiskState :=
  { rm with activeTrades := fun t =>
      if t = ty then max 0 (rm.activeTrades ty - 1) else rm.activeTrades t }

/-- `recordTrade(profitLoss)`: increments the daily count and accumulates
the absolute value of losses. -/
def recordTrade (profitLoss : ℚ) (rm : RiskState) : RiskState :=
  { rm with
    dailyTrades := rm.dailyTrades + 1,
    dailyLoss := if profitLoss < 0 then rm.dailyLoss + |profitLoss|
      else rm.dailyLoss }

/-- The public mutating operations of `RiskManager` other than the
operator's `disableEmergencyStop`. -/
inductive RiskOp where
  | evaluate : RiskOpportunity → String → BalanceManager.BalanceState → RiskOp
  | record : ℚ → RiskOp
  | increment : OpportunityType → RiskOp
  | decrement : OpportunityType → RiskOp

/-- Apply one operation to the risk state. -/
def applyRiskOp (rm : RiskState) : RiskOp → RiskState
  | .evaluate opp today bs => (checkOpportunity opp today bs rm).2
  | .record p => recordTrade p rm
  | .increment ty => incrementActiveTrades ty rm
  | .decrement ty => decrementActiveTrades ty rm

/-- Apply a sequence of operations to the risk state. -/
def applyRiskOps (ops : List RiskOp) (rm : RiskState) : RiskState :=
  ops.foldl applyRiskOp rm

/-- The `incrementActiveTrades` / `decrementActiveTrades` call sequences of
claim C10. -/
inductive ActiveOp where
  | increment : OpportunityType → ActiveOp
  | decrement : OpportunityType → ActiveOp

/-- Apply one counter operation. -/
def applyActiveOp (rm : RiskState) : ActiveOp → RiskState
  | .increment ty => incrementActiveTrades ty rm
  | .decrement ty => decrementActiveTrades ty rm

/-- Apply a sequence of counter operations. -/
def applyActiveOps (ops : List ActiveOp) (rm : RiskState) : RiskState :=
  ops.foldl applyActiveOp rm

end RiskManager

/-! ## CrossExchangeStrategy
(src/src/services/trading/strategies/CrossExchangeStrategy.ts) -/

namespace CrossStrategy

/-- `TradeStatus` (src/src/types, trading document). -/
inductive TradeStatus where
  | validating : TradeStatus
  | approved : TradeStatus
  | rejected : TradeStatus
  | executing : TradeStatus
  | monitoring : TradeStatus
  | completed : TradeStatus
  | failed : TradeStatus
  | partialFill : TradeStatus
  | rolledBack : TradeStatus
deriving DecidableEq

/-- An order as returned by the execution service (the fields
`calculateProfit` reads). -/
structure ExecutedOrder where
  exchange : String
  id : String
  side : String
  cost : ℚ
  feeCost : ℚ
  average : ℚ
deriving DecidableEq

/-- A balance snapshot entry of `captureTradeState`. -/
structure BalanceSnapshot where
  exchange : String
  currency : String
  amount : ℚ
deriving DecidableEq

/-- `ProfitResult` of `calculateProfit`. -/
structure ProfitResult where
  grossProfit : ℚ
  netProfit : ℚ
  profitPercent : ℚ
  feesTotal : ℚ
  slippageExpected : ℚ
  slippageActual : ℚ
deriving DecidableEq

/-- `TradeAttempt` (the fields the cross-exchange flow writes). -/
structure TradeAttempt where
  id : String
  opportunityId : String
  status : TradeStatus
  orders : List ExecutedOrder
  preTradeState : List BalanceSnapshot
  postTradeState : Option (List BalanceSnapshot)
  profit : Option ProfitResult
  error : Option String
deriving DecidableEq

/-- The outcomes of the awaited execution-service calls during one run:
`executeOrdersResult` is the result of `executeOrders` (an exception is
`Except.error`), and `waitResult oid` is `none` when
`waitForOrderCompletion` for order `oid` resolves and `some msg` when it
rejects (timeout or venue error). -/
structure ExecOracle where
  executeOrdersResult : Except String (List ExecutedOrder)
  waitResult : String → Option String

/-- The first rejection `Promise.all` of the monitoring step surfaces. -/
def firstWaitError (oracle : ExecOracle) (orders : List ExecutedOrder) :
    Option String :=
  (orders.filterMap (fun o => oracle.waitResult o.id)).head?

/-- `captureTradeState(opportunity)`: free balances of the quote currency on
the buy venue and the base currency on the sell venue. -/
def captureTradeState (bs : BalanceManager.BalanceState)
    (opportunity : ArbitrageOpportunity) : List BalanceSnapshot :=
  let baseCurrency := RiskManager.baseOf opportunity.symbol
  let quoteCurrency := RiskManager.quoteOf opportunity.symbol
  [ { exchange := opportunity.buyExchange, currency := quoteCurrency,
      amount := (BalanceManager.getBalance bs opportunity.buyExchange
        quoteCurrency).elim 0 (fun b => b.free) },
    { exchange := opportunity.sellExchange, currency := baseCurrency,
      amount := (BalanceManager.getBalance bs opportunity.sellExchange
        baseCurrency).elim 0 (fun b => b.free) } ]

/-- `calculateProfit(opportunity, orders)`: `none` models the thrown
`Missing orders for profit calculation`. -/
def calculateProfit (opportunity : ArbitrageOpportunity)
    (orders : List ExecutedOrder) : Option ProfitResult :=
  match orders.find? (fun o => o.side = "buy"),
        orders.find? (fun o => o.side = "sell") with
  | some buyOrder, some sellOrder =>
    let buyCost := buyOrder.cost + buyOrder.feeCost
    let sellRevenue := sellOrder.cost - sellOrder.feeCost
    let grossProfit := sellRevenue - buyCost
    let netProfit := grossProfit
    some { grossProfit, netProfit,
           profitPercent := netProfit / buyCost * 100,
           feesTotal := buyOrder.feeCost + sellOrder.feeCost,
           slippageExpected := opportunity.buySlippage + opportunity.sellSlippage,
           slippageActual := |buyOrder.average - opportunity.buyPrice| +
             |sellOrder.average - opportunity.sellPrice| }
  | _, _ => none

/-- The overall outcome of one `execute` run: the returned trade attempt,
the final risk and balance states, and the venues whose balances the
`finally` block refreshed. -/
structure ExecuteResult where
  attempt : TradeAttempt
  rm : RiskManager.RiskState
  bs : BalanceManager.BalanceState
  refreshed : List String

/-- The `finally` block of `execute`: unlock quote on the buy venue and base
on the sell venue, decrement the cross-exchange active-trade counter, and
refresh both venues' balances. -/
def finallyBlock (tid : String) (opportunity : ArbitrageOpportunity)
    (attempt : TradeAttempt) (rm : RiskManager.RiskState)
    (bs : BalanceManager.BalanceState) : ExecuteResult :=
  let baseCurrency := RiskManager.baseOf opportunity.symbol
  let quoteCurrency := RiskManager.quoteOf opportunity.symbol
  let bs := BalanceManager.unlockBalance tid opportunity.buyExchange
    quoteCurrency bs
  let bs := BalanceManager.unlockBalance tid opportunity.sellExchange
    baseCurrency bs
  let rm := RiskManager.decrementActiveTrades .crossExchange rm
  { attempt, rm, bs,
    refreshed := [opportunity.buyExchange, opportunity.sellExchange] }

/-- `CrossExchangeStrategy.execute(opportunity)`. `tid` stands for the fresh
`crypto.randomUUID()` trade id and `oracle` for the awaited
execution-service results. Any exception inside the `try` lands in the
`catch`, which tags the attempt FAILED; the `finally` block always runs. -/
def execute (tid : String) (opportunity : ArbitrageOpportunity)
    (today : String) (oracle : ExecOracle) (rm : RiskManager.RiskState)
    (bs : BalanceManager.BalanceState) : ExecuteResult :=
  let pre := captureTradeState bs opportunity
  let attempt0 : TradeAttempt :=
    { id := tid, opportunityId := opportunity.id, status := .validating,
      orders := [], preTradeState := pre, postTradeState := none,
      profit := none, error := none }
  let riskCheck := RiskManager.checkOpportunity (.cross opportunity) today bs rm
  let rm := riskCheck.2
  if ¬ riskCheck.1.approved then
    finallyBlock tid opportunity
      { attempt0 with
        status := .rejected,
        error := some (String.intercalate ", " riskCheck.1.reasons) } rm bs
  else
    let baseCurrency := RiskManager.baseOf opportunity.symbol
    let quoteCurrency := RiskManager.quoteOf opportunity.symbol
    let buyAmount := orDefault opportunity.recommendedTradeSize 100
    let sellAmount := buyAmount / opportunity.buyPrice
    let buyLock := BalanceManager.lockBalance tid opportunity.buyExchange
      quoteCurrency buyAmount bs
    let sellLock := BalanceManager.lockBalance tid opportunity.sellExchange
      baseCurrency sellAmount buyLock.2
    let bs := sellLock.2
    if ¬ (buyLock.1 && sellLock.1) then
      finallyBlock tid opportunity
        { attempt0 with
          status := .failed,
          error := some "Failed to lock balances" } rm bs
    else
      let rm := RiskManager.incrementActiveTrades .crossExchange rm
      match oracle.executeOrdersResult with
      | .error e =>
        finallyBlock tid opportunity
          { attempt0 with
            status := .failed,
            error := some e } rm bs
      | .ok executedOrders =>
        match firstWaitError oracle executedOrders with
        | some e =>
          finallyBlock tid opportunity
            { attempt0 with
              status := .failed,
              orders := executedOrders,
              error := some e } rm bs
        | none =>
          match calculateProfit opportunity executedOrders with
          | none =>
            finallyBlock tid opportunity
              { attempt0 with
                status := .failed,
                orders := executedOrders,
                error := some "Missing orders for profit calculation" } rm bs
          | some profit =>
            let post := captureTradeState bs opportunity
            let rm := RiskManager.recordTrade profit.netProfit rm
            finallyBlock tid opportunity
              { attempt0 with
                status := .completed,
                orders := executedOrders,
                postTradeState := some post,
                profit := some profit } rm bs

end CrossStrategy

/-! ## BinanceService depth handling
(src/src/services/exchanges/BinanceService.ts and the
`AbstractExchangeService` close handler, src/unnamed/part_006) -/

namespace BinanceAdapter

/-- `BinanceDepthUpdateTopic` with price/size strings already parsed to
rationals (`parseFloat` normalization elided). -/
structure DepthUpdateTopic where
  E : ℤ
  s : String
  U : ℤ
  u : ℤ
  b : List (ℚ × ℚ)
  a : List (ℚ × ℚ)
deriving DecidableEq

/-- `OrderBookState`: the per-symbol replica; the price-keyed sides are
modelled as partial functions. -/
structure OrderBookState where
  symbol : String
  bids : ℚ → Option ℚ
  asks : ℚ → Option ℚ
  lastUpdateId : ℤ
  timestamp : ℤ
  isInitialized : Bool

/-- `OrderBookBuffer`. -/
structure OrderBookBuffer where
  events : List DepthUpdateTopic
  isInitialized : Bool
  lastUpdateId : ℤ

/-- The events an adapter emits to downstream consumers. -/
inductive AdapterEvent where
  | bookUpdate : String → String → AdapterEvent
  | bookInvalidate : String → String → AdapterEvent
deriving DecidableEq

/-- Apply one side's delta entries in order: size 0 deletes the level,
anything else sets it. -/
def applyBookSide (side : ℚ → Option ℚ) (changes : List (ℚ × ℚ)) :
    ℚ → Option ℚ :=
  changes.foldl
    (fun acc change => fun price =>
      if price = change.1 then (if change.2 = 0 then none else some change.2)
      else acc price)
    side

/-- `emitOrderBookUpdate(symbol, state)` (part_006): throttled to one
`orderBookUpdate` event per symbol per 100 ms; returns the new `lastEmit`
map and the emitted events. (The `stateToOrderBook` payload construction is
not needed by any claim and is elided; the event carries venue and symbol.) -/
def emitOrderBookUpdate (exchange : String) (now : ℤ)
    (lastEmit : List (String × ℤ)) (symbol : String) :
    List (String × ℤ) × List AdapterEvent :=
  let prev := (assocGetInt lastEmit symbol).getD 0
  if now - prev < 100 then (lastEmit, [])
  else (assocSetInt lastEmit symbol now, [.bookUpdate exchange symbol])
where
  /-- `Map.get` on the `lastEmit` map. -/
  assocGetInt (l : List (String × ℤ)) (k : String) : Option ℤ :=
    (l.find? (fun p => p.1 = k)).map Prod.snd
  /-- `Map.set` on the `lastEmit` map. -/
  assocSetInt (l : List (String × ℤ)) (k : String) (v : ℤ) :
      List (String × ℤ) :=
    if (l.find? (fun p => p.1 = k)).isSome then
      l.map (fun p => if p.1 = k then (k, v) else p)
    else l ++ [(k, v)]

/-- The outcome of one `applyDepthUpdate` call. `resnapshotRequested` is
true when the handler called `initializeOrderBook` again (the REST fetch
itself is network I/O outside the model). -/
structure ApplyDepthResult where
  buffer : OrderBookBuffer
  states : List (String × OrderBookState)
  lastEmit : List (String × ℤ)
  events : List AdapterEvent
  resnapshotRequested : Bool

/-- `applyDepthUpdate(symbol, data, buffer)`: drop already-applied deltas;
on an update-id gap (`data.U > buffer.lastUpdateId + 1`) clear the buffer,
mark it uninitialized and request a re-snapshot — emitting NO event and
leaving `orderBookStates` untouched; otherwise merge both sides, advance
the update ids and emit a (throttled) book update. -/
def applyDepthUpdate (exchange : String) (now : ℤ) (symbol : String)
    (data : DepthUpdateTopic) (buffer : OrderBookBuffer)
    (states : List (String × OrderBookState))
    (lastEmit : List (String × ℤ)) : ApplyDepthResult :=
  match (states.find? (fun p => p.1 = symbol)).map Prod.snd with
  | none =>
    { buffer, states, lastEmit, events := [], resnapshotRequested := false }
  | some state =>
    if data.u ≤ buffer.lastUpdateId then
      { buffer, states, lastEmit, events := [], resnapshotRequested := false }
    else if buffer.lastUpdateId + 1 < data.U then
      { buffer := { events := [], isInitialized := false,
                    lastUpdateId := buffer.lastUpdateId },
        states, lastEmit, events := [], resnapshotRequested := true }
    else
      let state2 : OrderBookState :=
        { state with
          bids := applyBookSide state.bids data.b,
          asks := applyBookSide state.asks data.a,
          lastUpdateId := data.u,
          timestamp := data.E }
      let buffer2 := { buffer with lastUpdateId := data.u }
      let emitted := emitOrderBookUpdate exchange now lastEmit symbol
      { buffer := buffer2,
        states := states.map (fun p => if p.1 = symbol then (symbol, state2)
          else p),
        lastEmit := emitted.1,
        events := emitted.2,
        resnapshotRequested := false }

/-- The `close` handler of `createWSConnection` (part_006): emits
`orderBookInvalidate` for every symbol with a tracked replica, then clears
the adapter state. -/
def closeHandlerEvents (exchange : String)
    (states : List (String × OrderBookState)) : List AdapterEvent :=
  states.map (fun p => .bookInvalidate exchange p.1)

end BinanceAdapter

/-! ## Concrete scenario data for witnesses and counterexamples -/

namespace Scenario

/-- A single funded balance table: 100 USDT free on binance. -/
def fundedBalances : String → String → Option BalanceManager.Balance :=
  fun exchange currency =>
    if exchange = "binance" ∧ currency = "USDT" then
      some { free := 100, used := 0, total := 100 }
    else none

/-- Balance state with no locks (`minBalanceThreshold = 10`). -/
def ledgerNoLocks : BalanceManager.BalanceState :=
  { balances := fundedBalances, locks := fun _ => none,
    minBalanceThreshold := 10 }

/-- Balance state in which trade `t1` already holds a lock on binance:USDT. -/
def ledgerWithT1 : BalanceManager.BalanceState :=
  { balances := fundedBalances,
    locks := fun k => if k = "binance:USDT" then some ["t1"] else none,
    minBalanceThreshold := 10 }

/-- A placeholder cross-venue opportunity record (default element). -/
def dummyOpportunity : ArbitrageOpportunity :=
  { id := "", symbol := "", buyExchange := "", sellExchange := "",
    buyPrice := 0, sellPrice := 0, profitPercent := 0, profitAmount := 0,
    volume := 0, timestamp := 0,
    fees := { buy := 0, sell := 0, total := 0 },
    buySlippage := 0, sellSlippage := 0, effectiveBuyPrice := 0,
    effectiveSellPrice := 0, confidence := 0, liquidityScore := 0,
    spreadImpact := 0, availableLiquidity := none,
    recommendedTradeSize := none, netProfitAfterSlippage := 0,
    profitPercentAfterSlippage := 0 }

/-- Fresh binance tick for BTC/USDT at 100. -/
def tickBinance : ExchangePrice :=
  { exchange := "binance", symbol := "BTC/USDT", price := 100,
    timestamp := 1000, volume := some 5, bid := some 99, ask := some 100 }

/-- Fresh kraken tick for BTC/USDT at 103. -/
def tickKraken : ExchangePrice :=
  { exchange := "kraken", symbol := "BTC/USDT", price := 103,
    timestamp := 1000, volume := some 5, bid := some 103, ask := some 104 }

/-- Deep fresh binance book: one ask level at 100. -/
def bookBinance : OrderBookMetrics :=
  { symbol := "BTC/USDT", exchange := "binance",
    bids := [(99, 1000)], asks := [(100, 1000)],
    midPrice := 995 / 10, spread := 1, spreadPercent := 1 / 10,
    totalBidVolume := 1000, totalAskVolume := 1000,
    timestamp := 1000, updateId := 7 }

/-- Deep fresh kraken book: one bid level at 103. -/
def bookKraken : OrderBookMetrics :=
  { symbol := "BTC/USDT", exchange := "kraken",
    bids := [(103, 1000)], asks := [(104, 1000)],
    midPrice := 2070 / 20, spread := 1, spreadPercent := 1 / 10,
    totalBidVolume := 1000, totalAskVolume := 1000,
    timestamp := 1000, updateId := 9 }

/-- Detector config: 0.5% minimum profit, 1000 max investment. -/
def arbCfg : ArbitrageService.ArbConfig :=
  { minProfitPercent := 1 / 2, maxInvestment := 1000 }

/-- Detector state holding both fresh ticks and both fresh books. -/
def arbSt : ArbitrageService.ArbState :=
  { opportunities := [],
    prices := [("binance:BTC/USDT", tickBinance), ("kraken:BTC/USDT", tickKraken)],
    orderBooks := [("binance:BTC/USDT", bookBinance),
      ("kraken:BTC/USDT", bookKraken)] }

/-- The opportunity the detector emits for the scenario above (all fields
written out; verified against the pipeline by `scenario_emitted_eq`). -/
def c2OppLit : ArbitrageOpportunity :=
  { id := "id", symbol := "BTC/USDT", buyExchange := "binance",
    sellExchange := "kraken", buyPrice := 100, sellPrice := 103,
    profitPercent := 1852 / 625, profitAmount := 148161 / 5000, volume := 5,
    timestamp := 1000,
    fees := { buy := 1 / 1000, sell := 13 / 5000, total := 9 / 2500 },
    buySlippage := 0, sellSlippage := 0, effectiveBuyPrice := 100,
    effectiveSellPrice := 103, confidence := 2208 / 25, liquidityScore := 100,
    spreadImpact := 337 / 100, availableLiquidity := some 100000,
    recommendedTradeSize := some 10, netProfitAfterSlippage := 148161 / 5000,
    profitPercentAfterSlippage := 1852 / 625 }

/-- Triangular config for the scenarios: generous slippage caps. -/
def triCfg : TriangularBybit.TriConfig :=
  { minProfitPercent := 1 / 2, minConfidence := 60, maxSlippage := 1,
    maxSlippagePerTrade := 1 }

/-- A three-leg path starting from 100 USDT. -/
def triPath : TriangularBybit.TriangularPath :=
  { symbols := ["BTC/USDT", "ETH/BTC", "ETH/USDT"],
    directions := [.buy, .buy, .sell], minAmount := 100 }

/-- Bookless fresh price caches for the three legs (prices 100, 1, 200;
ask = last on the two buy legs, bid = last on the sell leg). -/
def triData : List TriangularBybit.PriceCache :=
  [ { price :=
        { exchange := "bybit", symbol := "BTC/USDT", price := 100,
          timestamp := 1000, volume := none, bid := some 100, ask := some 100 },
      orderBook := none },
    { price :=
        { exchange := "bybit", symbol := "ETH/BTC", price := 1,
          timestamp := 1000, volume := none, bid := some 1, ask := some 1 },
      orderBook := none },
    { price :=
        { exchange := "bybit", symbol := "ETH/USDT", price := 200,
          timestamp := 1000, volume := none, bid := some 200, ask := some 200 },
      orderBook := none } ]

/-- A placeholder triangular opportunity record (default element). -/
def dummyTriOpportunity : TriangularBybit.TriangularOpportunity :=
  { id := "", exchange := "", path := [], directions := [], prices := [],
    effectivePrices := [], startAmount := 0, endAmount := 0,
    profitPercent := 0, profitUSDT := 0, feesTotal := 0, feesPerTrade := [],
    confidence := 0, executionTime := 0, slippageTotal := 0,
    slippagePerTrade := [], timestamp := 0, valid := false }

/-- The triangular opportunity computed for the scenario above (all fields
written out; verified against the computation in the C5 witness). -/
def triOppLit : TriangularBybit.TriangularOpportunity :=
  { id := "id", exchange := "bybit",
    path := ["BTC/USDT", "ETH/BTC", "ETH/USDT"],
    directions := [.buy, .buy, .sell],
    prices := [100, 1, 200], effectivePrices := [100, 1, 200],
    startAmount := 100, endAmount := 997002999 / 5000000,
    profitPercent := 497003 / 5000, profitUSDT := 497 / 5,
    feesTotal := 1 / 5, feesPerTrade := [0, 0, 1 / 5], confidence := 100,
    executionTime := 0, slippageTotal := 0, slippagePerTrade := [0, 0, 0],
    timestamp := 1000, valid := true }

/-- Trading config: everything enabled, daily loss cap 50, ample caps. -/
def tradingCfg : RiskManager.TradingConfig :=
  { enabled := true,
    crossExchange :=
      { enabled := true, minProfitPercent := 1 / 2,
        maxPositionSize := 1000, maxConcurrentTrades := 3 },
    triangular :=
      { enabled := true, minProfitPercent := 1 / 2,
        maxPositionSize := 1000, maxConcurrentTrades := 2 },
    riskManagement :=
      { maxDailyLoss := 50, maxDailyTrades := 10,
        emergencyStop := false, blacklistedSymbols := [],
        blacklistedExchanges := [] } }

/-- Risk state after two losing trades summing a 52 loss. -/
def riskAfterLosses : RiskManager.RiskState :=
  { dailyTrades := 2, dailyLoss := 52, activeTrades := fun _ => 0,
    lastResetDate := "2026-10-11", config := tradingCfg }

/-- Fresh risk state with zero counters. -/
def riskFresh : RiskManager.RiskState :=
  { dailyTrades := 0, dailyLoss := 0, activeTrades := fun _ => 0,
    lastResetDate := "2026-10-11", config := tradingCfg }

/-- A profitable cross-venue opportunity used by the trade-flow scenarios. -/
def tradeOpp : ArbitrageOpportunity :=
  { dummyOpportunity with
    id := "opp-1", symbol := "BTC/USDT", buyExchange := "binance",
    sellExchange := "kraken", buyPrice := 100, sellPrice := 103,
    profitPercent := 2, profitAmount := 20, confidence := 80,
    liquidityScore := 100, recommendedTradeSize := some 50,
    netProfitAfterSlippage := 20, profitPercentAfterSlippage := 2 }

/-- A duplicate of the trade opportunity with strictly higher confidence. -/
def higherOpp : ArbitrageOpportunity :=
  { tradeOpp with id := "opp-2", confidence := 90 }

/-- A duplicate of the trade opportunity with equal confidence. -/
def equalOpp : ArbitrageOpportunity :=
  { tradeOpp with id := "opp-3" }

/-- Balance state funding the trade-flow scenario on both venues. -/
def tradeLedger : BalanceManager.BalanceState :=
  { balances := fun exchange currency =>
      if exchange = "binance" ∧ currency = "USDT" then
        some { free := 1000, used := 0, total := 1000 }
      else if exchange = "kraken" ∧ currency = "BTC" then
        some { free := 10, used := 0, total := 10 }
      else none,
    locks := fun _ => none, minBalanceThreshold := 10 }

/-- The buy leg as returned by the execution service: fully filled. -/
def buyOrderFilled : CrossStrategy.ExecutedOrder :=
  { exchange := "binance", id := "buy-1", side := "buy", cost := 50,
    feeCost := 5 / 100, average := 100 }

/-- The sell leg as returned by the execution service. -/
def sellOrderPending : CrossStrategy.ExecutedOrder :=
  { exchange := "kraken", id := "sell-1", side := "sell", cost := 515 / 10,
    feeCost := 13 / 100, average := 103 }

/-- Oracle for the partial-fill scenario: both orders submit, the buy leg's
wait resolves, the sell leg's wait rejects with a timeout. -/
def timeoutOracle : CrossStrategy.ExecOracle :=
  { executeOrdersResult := .ok [buyOrderFilled, sellOrderPending],
    waitResult := fun oid =>
      if oid = "sell-1" then some "Order timeout" else none }

/-- A depth delta whose first update id 104 leaves a gap after 102. -/
def gapDelta : BinanceAdapter.DepthUpdateTopic :=
  { E := 5000, s := "BTCUSDT", U := 104, u := 104,
    b := [(99, 1)], a := [(101, 1)] }

/-- Buffer synchronized through update id 102. -/
def syncedBuffer : BinanceAdapter.OrderBookBuffer :=
  { events := [], isInitialized := true, lastUpdateId := 102 }

/-- Replica map holding an initialized BTC/USDT book. -/
def syncedStates : List (String × BinanceAdapter.OrderBookState) :=
  [("BTC/USDT",
    { symbol := "BTC/USDT", bids := fun p => if p = 99 then some 2 else none,
      asks := fun p => if p = 101 then some 2 else none,
      lastUpdateId := 102, timestamp := 4000, isInitialized := true })]

/-- Bookless fresh caches used by the confidence counterexample (three legs,
no books, zero age). -/
def confData : List TriangularBybit.PriceCache := triData

end Scenario

/-! ## Theorems -/

/-- Helper: `hasAvailableBalance` succeeds exactly when a balance entry
exists and the free amount covers the request plus lock-count times the
request. -/
theorem hasAvailableBalance_eq_true_iff (s : BalanceManager.BalanceState)
    (exchange currency : String) (amount : ℚ) :
    BalanceManager.hasAvailableBalance s exchange currency amount = true ↔
      ∃ b, BalanceManager.getBalance s exchange currency = some b ∧
        amount ≤ b.free -
          ((BalanceManager.locksFor s exchange currency).length : ℚ) * amount := by
  rcases h : BalanceManager.getBalance s exchange currency with _ | b <;>
    simp [BalanceManager.hasAvailableBalance, h]

/-- C1 (amended): `lock(tradeId, exchange, currency, amount)` succeeds iff a
balance entry exists for the key and
`amount ≤ free − (number of active locks for the key) × amount` — the code
multiplies the lock-set size by the REQUESTED amount instead of summing the
amounts the active locks were taken for; and a failed lock leaves the state
(in particular the set of active locks) unchanged. -/
theorem c1_lock_grant_condition (s : BalanceManager.BalanceState)
    (tradeId exchange currency : String) (amount : ℚ) :
    ((BalanceManager.lockBalance tradeId exchange currency amount s).1 = true ↔
      ∃ b, BalanceManager.getBalance s exchange currency = some b ∧
        amount ≤ b.free -
          ((BalanceManager.locksFor s exchange currency).length : ℚ) * amount)
    ∧ ((BalanceManager.lockBalance tradeId exchange currency amount s).1 = false →
        (BalanceManager.lockBalance tradeId exchange currency amount s).2 = s) := by
  have hiff := hasAvailableBalance_eq_true_iff s exchange currency amount
  by_cases hav : BalanceManager.hasAvailableBalance s exchange currency amount = true
  · refine ⟨⟨fun _ => hiff.mp hav, fun _ => ?_⟩, fun hf => ?_⟩
    · simp [BalanceManager.lockBalance, hav]
    · simp [BalanceManager.lockBalance, hav] at hf
  · have hav2 : BalanceManager.hasAvailableBalance s exchange currency amount = false :=
      Bool.eq_false_iff.mpr hav
    refine ⟨⟨fun ht => absurd ?_ hav, fun hex => absurd (hiff.mpr hex) hav⟩,
      fun _ => ?_⟩
    · simp [BalanceManager.lockBalance, hav2] at ht
    · simp [BalanceManager.lockBalance, hav2]

/-- C1 witness: on a ledger with 100 free USDT and no locks, a lock of 40 is
granted, and a lock of 200 is rejected leaving the state unchanged. -/
theorem c1_lock_grant_condition_witness :
    (BalanceManager.lockBalance "t9" "binance" "USDT" 40
      Scenario.ledgerNoLocks).1 = true ∧
    (BalanceManager.lockBalance "t9" "binance" "USDT" 200
      Scenario.ledgerNoLocks).2 = Scenario.ledgerNoLocks := by
  have h200 : (BalanceManager.lockBalance "t9" "binance" "USDT" 200
      Scenario.ledgerNoLocks).1 = false := by
    norm_num [BalanceManager.lockBalance, BalanceManager.hasAvailableBalance,
      BalanceManager.getBalance, Scenario.ledgerNoLocks, Scenario.fundedBalances,
      BalanceManager.locksFor]
  refine ⟨(c1_lock_grant_condition Scenario.ledgerNoLocks "t9" "binance" "USDT"
      40).1.mpr ⟨{ free := 100, used := 0, total := 100 }, rfl, ?_⟩,
    (c1_lock_grant_condition Scenario.ledgerNoLocks "t9" "binance" "USDT"
      200).2 h200⟩
  norm_num [BalanceManager.locksFor, Scenario.ledgerNoLocks]

/-- C1 counterexample: with 100 free USDT and one active lock that was taken
for amount 90, the claim's available amount is 100 − 90 = 10 < 50, yet a
lock of 50 is granted (the code computes 100 − 1×50 = 50 ≥ 50). -/
theorem c1_lock_grant_counterexample :
    (BalanceManager.lockBalance "t1" "binance" "USDT" 90
      Scenario.ledgerNoLocks).1 = true ∧
    (BalanceManager.lockBalance "t2" "binance" "USDT" 50
      (BalanceManager.lockBalance "t1" "binance" "USDT" 90
        Scenario.ledgerNoLocks).2).1 = true ∧
    BalanceManager.claimAvailable 100 [90] < 50 := by
  refine ⟨?_, ?_, ?_⟩ <;>
    norm_num [BalanceManager.lockBalance, BalanceManager.hasAvailableBalance,
      BalanceManager.getBalance, Scenario.ledgerNoLocks, Scenario.fundedBalances,
      BalanceManager.locksFor, BalanceManager.claimAvailable]

/-- Helper: locking never changes the balance table. -/
theorem lockBalance_balances_eq (tradeId exchange currency : String)
    (amount : ℚ) (s : BalanceManager.BalanceState) :
    ((BalanceManager.lockBalance tradeId exchange currency amount s).2).balances
      = s.balances := by
  unfold BalanceManager.lockBalance
  split <;> rfl

/-- Helper: locking never changes the threshold parameter. -/
theorem lockBalance_threshold_eq (tradeId exchange currency : String)
    (amount : ℚ) (s : BalanceManager.BalanceState) :
    ((BalanceManager.lockBalance tradeId exchange currency amount s).2).minBalanceThreshold
      = s.minBalanceThreshold := by
  unfold BalanceManager.lockBalance
  split <;> rfl

/-- Helper: unlocking never changes the balance table. -/
theorem unlockBalance_balances_eq (tradeId exchange currency : String)
    (s : BalanceManager.BalanceState) :
    ((BalanceManager.unlockBalance tradeId exchange currency s)).balances
      = s.balances := by
  unfold BalanceManager.unlockBalance
  rcases h : s.locks (BalanceManager.getLockKey exchange currency) with _ | l
  · simp only [h]
  · simp only [h]
    split <;> rfl

/-- Helper: unlocking never changes the threshold parameter. -/
theorem unlockBalance_threshold_eq (tradeId exchange currency : String)
    (s : BalanceManager.BalanceState) :
    ((BalanceManager.unlockBalance tradeId exchange currency s)).minBalanceThreshold
      = s.minBalanceThreshold := by
  unfold BalanceManager.unlockBalance
  rcases h : s.locks (BalanceManager.getLockKey exchange currency) with _ | l
  · simp only [h]
  · simp only [h]
    split <;> rfl

/-- Helper: when the trade id holds no lock for the key beforehand, a lock
followed by an unlock restores the lock set of that key. -/
theorem locksFor_lock_unlock (s : BalanceManager.BalanceState)
    (tradeId exchange currency : String) (amount : ℚ)
    (h : tradeId ∉ BalanceManager.locksFor s exchange currency) :
    BalanceManager.locksFor
      (BalanceManager.unlockBalance tradeId exchange currency
        (BalanceManager.lockBalance tradeId exchange currency amount s).2)
      exchange currency = BalanceManager.locksFor s exchange currency := by
  have hmem : tradeId ∉
      (s.locks (BalanceManager.getLockKey exchange currency)).getD [] := by
    simpa [BalanceManager.locksFor] using h
  by_cases hav : BalanceManager.hasAvailableBalance s exchange currency amount = true
  · have hl : (BalanceManager.lockBalance tradeId exchange currency amount s).2 =
        { s with locks := fun k =>
            if k = BalanceManager.getLockKey exchange currency then
              some ((s.locks (BalanceManager.getLockKey exchange currency)).getD []
                ++ [tradeId])
            else s.locks k } := by
      simp [BalanceManager.lockBalance, hav, hmem]
    rw [hl]
    have herase :
        (((s.locks (BalanceManager.getLockKey exchange currency)).getD []
          ++ [tradeId]).erase tradeId)
        = (s.locks (BalanceManager.getLockKey exchange currency)).getD [] := by
      rw [List.erase_append_right _ hmem, List.erase_cons_head, List.append_nil]
    by_cases hlen :
        ((s.locks (BalanceManager.getLockKey exchange currency)).getD []).length = 0
    · have hnil := List.length_eq_zero.mp hlen
      simp [BalanceManager.unlockBalance, BalanceManager.locksFor, herase, hlen,
        hnil]
    · simp [BalanceManager.unlockBalance, BalanceManager.locksFor, herase, hlen]
  · have hav2 : BalanceManager.hasAvailableBalance s exchange currency amount = false :=
      Bool.eq_false_iff.mpr hav
    have hl : (BalanceManager.lockBalance tradeId exchange currency amount s).2 = s := by
      simp [BalanceManager.lockBalance, hav2]
    rw [hl]
    rcases hsl : s.locks (BalanceManager.getLockKey exchange currency) with _ | l
    · simp [BalanceManager.unlockBalance, BalanceManager.locksFor, hsl]
    · rw [hsl] at hmem
      have herase : l.erase tradeId = l :=
        List.erase_of_not_mem (by simpa using hmem)
      by_cases hlen : l.length = 0
      · have hnil := List.length_eq_zero.mp hlen
        simp [BalanceManager.unlockBalance, BalanceManager.locksFor, hsl, herase,
          hlen, hnil]
      · simp [BalanceManager.unlockBalance, BalanceManager.locksFor, hsl, herase,
          hlen]

/-- C9 (amended): provided the trade id holds no active lock for the
(exchange, currency) key beforehand, `lock(t, exchange, currency, amount)`
followed by `unlock(t, exchange, currency)` returns the available amount of
that key to exactly its pre-lock value (whether or not the lock was
granted). Without that proviso the round trip can INCREASE the available
amount, see the counterexample. -/
theorem c9_lock_unlock_roundtrip (s : BalanceManager.BalanceState)
    (tradeId exchange currency : String) (amount : ℚ)
    (h : tradeId ∉ BalanceManager.locksFor s exchange currency) :
    BalanceManager.getAvailableAmount
      (BalanceManager.unlockBalance tradeId exchange currency
        (BalanceManager.lockBalance tradeId exchange currency amount s).2)
      exchange currency
      = BalanceManager.getAvailableAmount s exchange currency := by
  have hb : (BalanceManager.unlockBalance tradeId exchange currency
      (BalanceManager.lockBalance tradeId exchange currency amount s).2).balances
      = s.balances := by
    rw [unlockBalance_balances_eq, lockBalance_balances_eq]
  have hm : (BalanceManager.unlockBalance tradeId exchange currency
      (BalanceManager.lockBalance tradeId exchange currency amount s).2).minBalanceThreshold
      = s.minBalanceThreshold := by
    rw [unlockBalance_threshold_eq, lockBalance_threshold_eq]
  have hl := locksFor_lock_unlock s tradeId exchange currency amount h
  simp only [BalanceManager.getAvailableAmount, BalanceManager.getBalance, hb,
    hm, hl]

/-- C9 witness: on the no-lock ledger the round trip for a fresh trade id
leaves the available amount at its pre-lock value. -/
theorem c9_lock_unlock_roundtrip_witness :
    BalanceManager.getAvailableAmount
      (BalanceManager.unlockBalance "t9" "binance" "USDT"
        (BalanceManager.lockBalance "t9" "binance" "USDT" 40
          Scenario.ledgerNoLocks).2) "binance" "USDT"
      = BalanceManager.getAvailableAmount Scenario.ledgerNoLocks "binance" "USDT" :=
  c9_lock_unlock_roundtrip Scenario.ledgerNoLocks "t9" "binance" "USDT" 40
    (by decide)

/-- C9 counterexample: trade `t1` already holds a lock on binance:USDT
(free 100, threshold 10, available 90). `lock("t1", …, 5)` is granted (the
JS `Set.add` is a no-op) and the following `unlock("t1", …)` removes the
pre-existing lock: the available amount becomes 100 ≠ 90. -/
theorem c9_lock_unlock_counterexample :
    (BalanceManager.lockBalance "t1" "binance" "USDT" 5
      Scenario.ledgerWithT1).1 = true ∧
    BalanceManager.getAvailableAmount Scenario.ledgerWithT1 "binance" "USDT" = 90 ∧
    BalanceManager.getAvailableAmount
      (BalanceManager.unlockBalance "t1" "binance" "USDT"
        (BalanceManager.lockBalance "t1" "binance" "USDT" 5
          Scenario.ledgerWithT1).2) "binance" "USDT" = 100 := by
  have hkey : BalanceManager.getLockKey "binance" "USDT" = "binance:USDT" := rfl
  refine ⟨?_, ?_, ?_⟩ <;>
    norm_num [BalanceManager.lockBalance, BalanceManager.hasAvailableBalance,
      BalanceManager.getBalance, Scenario.ledgerWithT1, Scenario.fundedBalances,
      BalanceManager.locksFor, hkey, BalanceManager.unlockBalance,
      BalanceManager.getAvailableAmount]

/-- C10: every per-kind active-trades counter stays non-negative along any
sequence of `incrementActiveTrades` / `decrementActiveTrades` calls, and a
decrement on a counter already at zero leaves it at zero. -/
theorem c10_active_trades_never_negative :
    (∀ (rm : RiskManager.RiskState),
      (∀ ty, 0 ≤ rm.activeTrades ty) →
      ∀ (ops : List RiskManager.ActiveOp) (ty : RiskManager.OpportunityType),
        0 ≤ (RiskManager.applyActiveOps ops rm).activeTrades ty)
    ∧ (∀ (rm : RiskManager.RiskState) (ty : RiskManager.OpportunityType),
        rm.activeTrades ty = 0 →
        (RiskManager.decrementActiveTrades ty rm).activeTrades ty = 0) := by
  constructor
  · intro rm h ops
    induction ops generalizing rm with
    | nil => exact h
    | cons op rest ih =>
      refine ih (RiskManager.applyActiveOp rm op) ?_
      intro ty
      cases op with
      | increment ty3 =>
        simp only [RiskManager.applyActiveOp, RiskManager.incrementActiveTrades]
        by_cases hty : ty = ty3
        · simp only [hty, if_pos rfl]
          have := h ty3
          omega
        · simpa [hty] using h ty
      | decrement ty3 =>
        simp only [RiskManager.applyActiveOp, RiskManager.decrementActiveTrades]
        by_cases hty : ty = ty3
        · simp [hty, le_max_left]
        · simpa [hty] using h ty
  · intro rm ty h
    simp [RiskManager.decrementActiveTrades, h]

/-- C10 witness: from the zeroed risk state, decrements before an increment
never drive the counter negative, and a decrement at zero yields zero. -/
theorem c10_active_trades_witness :
    (0 ≤ (RiskManager.applyActiveOps
      [RiskManager.ActiveOp.decrement RiskManager.OpportunityType.crossExchange,
       RiskManager.ActiveOp.decrement RiskManager.OpportunityType.triangular,
       RiskManager.ActiveOp.increment RiskManager.OpportunityType.crossExchange]
      Scenario.riskFresh).activeTrades RiskManager.OpportunityType.crossExchange)
    ∧ (RiskManager.decrementActiveTrades RiskManager.OpportunityType.crossExchange
        Scenario.riskFresh).activeTrades
        RiskManager.OpportunityType.crossExchange = 0 :=
  ⟨c10_active_trades_never_negative.1 Scenario.riskFresh
      (fun _ => by norm_num [Scenario.riskFresh]) _ _,
    c10_active_trades_never_negative.2 Scenario.riskFresh _ rfl⟩

/-- Helper: the lazy daily reset never touches the configuration. -/
theorem resetDaily_config_eq (today : String) (rm : RiskManager.RiskState) :
    (RiskManager.resetDailyCountersIfNeeded today rm).config = rm.config := by
  unfold RiskManager.resetDailyCountersIfNeeded
  split <;> rfl

/-- Helper: the risk state `checkOpportunity` returns is the lazily-reset
input state, possibly with the emergency stop tripped. -/
theorem checkOpportunity_state_cases (opp : RiskManager.RiskOpportunity)
    (today : String) (bs : BalanceManager.BalanceState)
    (rm : RiskManager.RiskState) :
    (RiskManager.checkOpportunity opp today bs rm).2 =
        RiskManager.resetDailyCountersIfNeeded today rm ∨
      (RiskManager.checkOpportunity opp today bs rm).2 =
        RiskManager.triggerEmergencyStop
          (RiskManager.resetDailyCountersIfNeeded today rm) := by
  unfold RiskManager.checkOpportunity
  dsimp only
  split
  · left; rfl
  · split
    · left; rfl
    · split
      · left; rfl
      · unfold RiskManager.checkDailyLimits
        split
        · left; rfl
        · split
          · right; rfl
          · left; rfl

/-- Helper: no risk-manager operation other than the operator reset can
clear the emergency-stop flag. -/
theorem applyRiskOp_stop_mono (rm : RiskManager.RiskState)
    (op : RiskManager.RiskOp)
    (h : rm.config.riskManagement.emergencyStop = true) :
    (RiskManager.applyRiskOp rm op).config.riskManagement.emergencyStop = true := by
  cases op with
  | evaluate opp today bs =>
    rcases checkOpportunity_state_cases opp today bs rm with he | he <;>
      simp only [RiskManager.applyRiskOp, he, RiskManager.triggerEmergencyStop,
        resetDaily_config_eq, h]
  | record p => exact h
  | increment ty => exact h
  | decrement ty => exact h

/-- Helper: the emergency-stop flag survives any operation sequence. -/
theorem applyRiskOps_stop_mono (ops : List RiskManager.RiskOp)
    (rm : RiskManager.RiskState)
    (h : rm.config.riskManagement.emergencyStop = true) :
    (RiskManager.applyRiskOps ops rm).config.riskManagement.emergencyStop = true := by
  induction ops generalizing rm with
  | nil => exact h
  | cons op rest ih =>
    exact ih (RiskManager.applyRiskOp rm op) (applyRiskOp_stop_mono rm op h)

/-- Helper: risk-manager operations never change the global enable flag. -/
theorem applyRiskOps_enabled_eq (ops : List RiskManager.RiskOp)
    (rm : RiskManager.RiskState) :
    (RiskManager.applyRiskOps ops rm).config.enabled = rm.config.enabled := by
  induction ops generalizing rm with
  | nil => rfl
  | cons op rest ih =>
    rw [RiskManager.applyRiskOps, List.foldl_cons, ← RiskManager.applyRiskOps,
      ih]
    cases op with
    | evaluate opp today bs =>
      rcases checkOpportunity_state_cases opp today bs rm with he | he <;>
        simp only [RiskManager.applyRiskOp, he, RiskManager.triggerEmergencyStop,
          resetDaily_config_eq]
    | record p => rfl
    | increment ty => rfl
    | decrement ty => rfl

/-- Helper: with trading enabled and the emergency stop set, an evaluation
rejects with exactly the emergency-stop reason and leaves the flag set. -/
theorem checkOpportunity_rejects_when_stopped
    (opp : RiskManager.RiskOpportunity) (today : String)
    (bs : BalanceManager.BalanceState) (rm : RiskManager.RiskState)
    (h1 : rm.config.enabled = true)
    (h2 : rm.config.riskManagement.emergencyStop = true) :
    (RiskManager.checkOpportunity opp today bs rm).1.approved = false ∧
    (RiskManager.checkOpportunity opp today bs rm).1.reasons =
      ["Emergency stop is active"] := by
  have hcfg := resetDaily_config_eq today rm
  unfold RiskManager.checkOpportunity
  dsimp only
  rw [hcfg, h1, h2]
  simp

/-- C7: once an evaluation reaches the daily-limit check (trading enabled,
stop not yet set, kind enabled, trade count below its cap) while the
accumulated daily loss has reached the configured maximum, that evaluation
returns approved = false and sets the sticky emergency-stop flag; after any
further sequence of evaluations, trade recordings and counter updates the
flag is still set and every evaluation returns approved = false with the
reason "Emergency stop is active". Only the operator's
`disableEmergencyStop` (not modelled as a step) clears it. -/
theorem c7_emergency_stop_sticky (rm : RiskManager.RiskState)
    (opp : RiskManager.RiskOpportunity) (today : String)
    (bs : BalanceManager.BalanceState)
    (h1 : rm.config.enabled = true)
    (h2 : rm.config.riskManagement.emergencyStop = false)
    (h3 : (RiskManager.kindConfig rm.config (RiskManager.kindOf opp)).enabled = true)
    (h4 : rm.dailyTrades < rm.config.riskManagement.maxDailyTrades)
    (h5 : rm.config.riskManagement.maxDailyLoss ≤ rm.dailyLoss)
    (h6 : rm.lastResetDate = today) :
    (RiskManager.checkOpportunity opp today bs rm).1.approved = false ∧
    (RiskManager.checkOpportunity opp today bs rm).2.config.riskManagement.emergencyStop
      = true ∧
    ∀ ops : List RiskManager.RiskOp,
      (RiskManager.applyRiskOps ops
        (RiskManager.checkOpportunity opp today bs rm).2).config.riskManagement.emergencyStop
        = true ∧
      ∀ (opp2 : RiskManager.RiskOpportunity) (today2 : String)
        (bs2 : BalanceManager.BalanceState),
        (RiskManager.checkOpportunity opp2 today2 bs2
          (RiskManager.applyRiskOps ops
            (RiskManager.checkOpportunity opp today bs rm).2)).1.approved = false ∧
        (RiskManager.checkOpportunity opp2 today2 bs2
          (RiskManager.applyRiskOps ops
            (RiskManager.checkOpportunity opp today bs rm).2)).1.reasons =
          ["Emergency stop is active"] := by
  have hreset : RiskManager.resetDailyCountersIfNeeded today rm = rm := by
    unfold RiskManager.resetDailyCountersIfNeeded
    simp [h6]
  have hdl : RiskManager.checkDailyLimits rm =
      (false, RiskManager.triggerEmergencyStop rm) := by
    unfold RiskManager.checkDailyLimits
    rw [if_neg (by omega), if_pos h5]
  have hmain : (RiskManager.checkOpportunity opp today bs rm).1.approved = false ∧
      (RiskManager.checkOpportunity opp today bs rm).2 =
        RiskManager.triggerEmergencyStop rm := by
    unfold RiskManager.checkOpportunity
    dsimp only
    rw [hreset, h1, h3]
    simp [h2, hdl]
  have hstop1 : (RiskManager.checkOpportunity opp today bs rm).2.config.riskManagement.emergencyStop
      = true := by
    rw [hmain.2]; rfl
  have hen1 : (RiskManager.checkOpportunity opp today bs rm).2.config.enabled
      = true := by
    rw [hmain.2]; exact h1
  refine ⟨hmain.1, hstop1, fun ops => ?_⟩
  have hstop2 := applyRiskOps_stop_mono ops _ hstop1
  have hen2 : (RiskManager.applyRiskOps ops
      (RiskManager.checkOpportunity opp today bs rm).2).config.enabled = true := by
    rw [applyRiskOps_enabled_eq]; exact hen1
  exact ⟨hstop2, fun opp2 today2 bs2 =>
    checkOpportunity_rejects_when_stopped opp2 today2 bs2 _ hen2 hstop2⟩

/-- C7 witness: with daily loss 52 over a cap of 50, the evaluation rejects
and trips the stop, and after a further `recordTrade(-5)` the next
evaluation rejects with exactly the emergency-stop reason. -/
theorem c7_emergency_stop_sticky_witness :
    (RiskManager.checkOpportunity (.cross Scenario.tradeOpp) "2026-10-11"
      Scenario.tradeLedger Scenario.riskAfterLosses).1.approved = false ∧
    (RiskManager.checkOpportunity (.cross Scenario.tradeOpp) "2026-10-11"
      Scenario.tradeLedger
      (RiskManager.applyRiskOps [RiskManager.RiskOp.record (-5)]
        (RiskManager.checkOpportunity (.cross Scenario.tradeOpp) "2026-10-11"
          Scenario.tradeLedger Scenario.riskAfterLosses).2)).1.reasons =
      ["Emergency stop is active"] := by
  have h := c7_emergency_stop_sticky Scenario.riskAfterLosses
    (.cross Scenario.tradeOpp) "2026-10-11" Scenario.tradeLedger rfl rfl rfl
    (by decide) (by decide) rfl
  exact ⟨h.1, ((h.2.2 [RiskManager.RiskOp.record (-5)]).2 _ _ _).2⟩

/-- C2: every opportunity the cross-venue detector emits via
`opportunityFound` passes `isOpportunityValid`, hence has confidence ≥ 60
and liquidityScore ≥ 50; and every opportunity the simple-estimator
fallback produces carries confidence 50 and liquidityScore 50 (and is
therefore never emitted). -/
theorem c2_emitted_above_thresholds
    (cfg : ArbitrageService.ArbConfig) (st : ArbitrageService.ArbState)
    (now : ℤ) (idGen : ℕ → String) (symbol : String)
    (o : ArbitrageOpportunity)
    (h : o ∈ ArbitrageService.emittedOpportunities cfg st now idGen symbol) :
    (60 ≤ o.confidence ∧ 50 ≤ o.liquidityScore) ∧
    ∀ (oid : String) (now2 : ℤ) (bp sp : ExchangePrice)
      (o2 : ArbitrageOpportunity),
      ArbitrageService.calculateSimpleOpportunity oid now2 bp sp = some o2 →
      o2.confidence = 50 ∧ o2.liquidityScore = 50 := by
  constructor
  · unfold ArbitrageService.emittedOpportunities at h
    dsimp only at h
    split at h
    · simp at h
    · have hv := (List.mem_filter.mp h).2
      rw [ArbitrageService.isOpportunityValid, Bool.and_eq_true,
        Bool.and_eq_true, Bool.and_eq_true] at hv
      exact ⟨of_decide_eq_true hv.1.1.2, of_decide_eq_true hv.1.2⟩
  · intro oid now2 bp sp o2 h2
    rw [ArbitrageService.calculateSimpleOpportunity] at h2
    split at h2
    · exact Option.noConfusion h2
    · dsimp only at h2
      split_ifs at h2 <;>
        first
        | exact Option.noConfusion h2
        | (injection h2 with h3; subst h3; exact ⟨rfl, rfl⟩)

set_option maxHeartbeats 2000000 in
/-- Helper: evaluation of the full depth-aware candidate computation on the
two-venue scenario. -/
theorem scenario_calcOpportunity_eq :
    ArbitrageService.calculateOpportunity Scenario.arbCfg Scenario.arbSt
      1000 "id" Scenario.tickBinance Scenario.tickKraken =
      some Scenario.c2OppLit := by
  have hob1 : ArbitrageService.getOrderBook Scenario.arbSt "binance" "BTC/USDT"
      = some Scenario.bookBinance := rfl
  have hob2 : ArbitrageService.getOrderBook Scenario.arbSt "kraken" "BTC/USDT"
      = some Scenario.bookKraken := rfl
  norm_num [ArbitrageService.calculateOpportunity, ArbitrageService.getValidOrderBooks,
    hob1, hob2,
    Scenario.arbCfg, Scenario.tickBinance, Scenario.tickKraken,
    Scenario.bookBinance, Scenario.bookKraken,
    ArbitrageService.areOrderBooksStale, ArbitrageService.calculateAvailableLiquidity,
    ArbitrageService.isLiquiditySufficient, ArbitrageService.calculateTradeParameters,
    ArbitrageService.calculateBothSlippages, ArbitrageService.calculateSlippage,
    ArbitrageService.fillOrders, ArbitrageService.calculateFees,
    ArbitrageService.calculateNetProfit, ArbitrageService.calculateQualityMetrics,
    ArbitrageService.buildOpportunity,
    ArbitrageService.minLiquidity,
    ArbitrageService.minConfidence, ArbitrageService.maxSlippagePercent,
    ArbitrageService.orderBookMaxAge, jsToFixed, orDefault, truthy,
    min_def, max_def, round_eq, Scenario.c2OppLit]
  have hne1 : "kraken" ≠ "binance" := by decide
  have hne2 : "kraken" ≠ "coinbase" := by decide
  norm_num [hne1, hne2]

/-- Helper: the reversed venue pair yields no candidate (sell ≤ buy). -/
theorem scenario_calcOpportunity_reverse_none :
    ArbitrageService.calculateOpportunity Scenario.arbCfg Scenario.arbSt
      1000 "id" Scenario.tickKraken Scenario.tickBinance = none := by
  norm_num [ArbitrageService.calculateOpportunity, Scenario.tickBinance,
    Scenario.tickKraken]

set_option maxHeartbeats 1000000 in
/-- Helper: the two-venue scenario emits exactly the literal opportunity. -/
theorem scenario_emitted_eq :
    ArbitrageService.emittedOpportunities Scenario.arbCfg Scenario.arbSt
      1000 (fun _ => "id") "BTC/USDT" = [Scenario.c2OppLit] := by
  have hp : Scenario.arbSt.prices =
      [("binance:BTC/USDT", Scenario.tickBinance),
        ("kraken:BTC/USDT", Scenario.tickKraken)] := rfl
  have hs1 : Scenario.tickBinance.symbol = "BTC/USDT" := rfl
  have hs2 : Scenario.tickKraken.symbol = "BTC/USDT" := rfl
  have hc : Scenario.arbCfg.minProfitPercent = 1 / 2 := rfl
  norm_num [ArbitrageService.emittedOpportunities, ArbitrageService.candidateList,
    ArbitrageService.candidatePairs, List.enum, List.enumFrom, hp, hs1, hs2, hc,
    scenario_calcOpportunity_eq, scenario_calcOpportunity_reverse_none,
    ArbitrageService.isOpportunityValid, ArbitrageService.minConfidence,
    List.filterMap_cons, List.filter, Scenario.c2OppLit]

/-- C2 witness: the scenario's emitted opportunity satisfies both
thresholds. -/
theorem c2_emitted_above_thresholds_witness :
    (60 ≤ Scenario.c2OppLit.confidence ∧ 50 ≤ Scenario.c2OppLit.liquidityScore) ∧
    ∀ (oid : String) (now2 : ℤ) (bp sp : ExchangePrice)
      (o2 : ArbitrageOpportunity),
      ArbitrageService.calculateSimpleOpportunity oid now2 bp sp = some o2 →
      o2.confidence = 50 ∧ o2.liquidityScore = 50 :=
  c2_emitted_above_thresholds Scenario.arbCfg Scenario.arbSt 1000
    (fun _ => "id") "BTC/USDT" Scenario.c2OppLit
    (by rw [scenario_emitted_eq]; exact List.mem_singleton.mpr rfl)

/-- C6: when the opportunity map already holds an entry with the identical
(symbol, buyExchange, sellExchange) triple (the first such entry, as the
code scans), `addOpportunity` replaces it if and only if the incoming
opportunity's confidence is strictly higher; otherwise the map is returned
completely unchanged (no garbage collection runs on that path). -/
theorem c6_dedup_strict_confidence
    (opportunities : List (String × ArbitrageOpportunity)) (now : ℤ)
    (o existing : ArbitrageOpportunity) (existingKey : String)
    (hfind : ArbitrageService.findSimilarOpportunity opportunities o =
      some existingKey)
    (hget : assocGet opportunities existingKey = some existing) :
    ArbitrageService.addOpportunity now o opportunities =
      if existing.confidence < o.confidence then
        assocSet opportunities existingKey o
      else opportunities := by
  simp only [ArbitrageService.addOpportunity, hfind, hget]

/-- C6 witness: a same-triple opportunity with confidence 90 replaces the
stored one with confidence 80 under its old key, while one with equal
confidence 80 leaves the map unchanged. -/
theorem c6_dedup_strict_confidence_witness :
    ArbitrageService.addOpportunity 1000 Scenario.higherOpp
        [("opp-1", Scenario.tradeOpp)] =
      assocSet [("opp-1", Scenario.tradeOpp)] "opp-1" Scenario.higherOpp ∧
    ArbitrageService.addOpportunity 1000 Scenario.equalOpp
        [("opp-1", Scenario.tradeOpp)] = [("opp-1", Scenario.tradeOpp)] :=
  ⟨(c6_dedup_strict_confidence [("opp-1", Scenario.tradeOpp)] 1000
      Scenario.higherOpp Scenario.tradeOpp "opp-1" rfl rfl).trans
      (if_pos (by norm_num [Scenario.tradeOpp, Scenario.higherOpp])),
    (c6_dedup_strict_confidence [("opp-1", Scenario.tradeOpp)] 1000
      Scenario.equalOpp Scenario.tradeOpp "opp-1" rfl rfl).trans
      (if_neg (by norm_num [Scenario.tradeOpp, Scenario.equalOpp]))⟩

/-- C8 (amended): the triangular confidence score equals the clamp to
[0, 100] of 100 minus the age penalty, minus the slippage penalty, plus the
profit bonus, minus `min(20, (Σ per-leg book penalty) / number-of-legs)` —
the accumulated book-presence/spread penalty is divided by the number of
legs before the 20-point cap is applied; the final score always lies in
[0, 100]. Stated for a non-empty leg list (on an empty list the JS code
divides by zero and produces NaN, which the rational model does not
represent). -/
theorem c8_confidence_formula (cfg : TriangularBybit.TriConfig) (now : ℤ)
    (pricesData : List TriangularBybit.PriceCache)
    (slippagePerTrade : List ℚ) (profitPercent : ℚ)
    (h : pricesData ≠ []) :
    TriangularBybit.calculateConfidence cfg now pricesData slippagePerTrade
        profitPercent =
      max 0 (min 100
        (100 -
          min 20
            ((((pricesData.map
              (fun p => ((now - p.price.timestamp : ℤ) : ℚ))).sum) /
                (pricesData.length : ℚ)) / 100) -
          slippagePerTrade.sum / cfg.maxSlippage * 30 +
          min 20 (profitPercent * 4) -
          min 20
            ((pricesData.map (fun cached =>
              match cached.orderBook with
              | none => (5 : ℚ)
              | some orderBook => min 10 (orderBook.spreadPercent * 100))).sum /
                (pricesData.length : ℚ)))) ∧
    0 ≤ TriangularBybit.calculateConfidence cfg now pricesData slippagePerTrade
        profitPercent ∧
    TriangularBybit.calculateConfidence cfg now pricesData slippagePerTrade
        profitPercent ≤ 100 := by
  refine ⟨?_, ?_, ?_⟩
  · rw [TriangularBybit.calculateConfidence]
  · rw [TriangularBybit.calculateConfidence]
    exact le_max_left 0 _
  · rw [TriangularBybit.calculateConfidence]
    exact max_le (by norm_num) (min_le_left _ _)

/-- C8 witness: the formula instantiated on the three bookless legs. -/
theorem c8_confidence_formula_witness :
    TriangularBybit.calculateConfidence Scenario.triCfg 1000 Scenario.confData
        [0, 0, 0] 1 =
      max 0 (min 100
        (100 -
          min 20
            ((((Scenario.confData.map
              (fun p => (((1000 : ℤ) - p.price.timestamp : ℤ) : ℚ))).sum) /
                (Scenario.confData.length : ℚ)) / 100) -
          ([(0 : ℚ), 0, 0]).sum / Scenario.triCfg.maxSlippage * 30 +
          min 20 ((1 : ℚ) * 4) -
          min 20
            ((Scenario.confData.map (fun cached =>
              match cached.orderBook with
              | none => (5 : ℚ)
              | some orderBook => min 10 (orderBook.spreadPercent * 100))).sum /
                (Scenario.confData.length : ℚ)))) ∧
    0 ≤ TriangularBybit.calculateConfidence Scenario.triCfg 1000
        Scenario.confData [0, 0, 0] 1 :=
  ⟨(c8_confidence_formula Scenario.triCfg 1000 Scenario.confData [0, 0, 0] 1
      (by decide)).1,
    (c8_confidence_formula Scenario.triCfg 1000 Scenario.confData [0, 0, 0] 1
      (by decide)).2.1⟩

/-- C8 counterexample: on three fresh bookless legs with zero slippage and
1% profit the code's confidence is 99 (penalty min(20, 15/3) = 5) while the
claim's formula (penalty 5 per bookless leg, i.e. 15, capped at 20) yields
89. -/
theorem c8_confidence_penalty_counterexample :
    TriangularBybit.calculateConfidence Scenario.triCfg 1000 Scenario.confData
        [0, 0, 0] 1 = 99 ∧
    TriangularBybit.claimConfidence Scenario.triCfg 1000 Scenario.confData
        [0, 0, 0] 1 = 89 ∧
    TriangularBybit.calculateConfidence Scenario.triCfg 1000 Scenario.confData
        [0, 0, 0] 1 ≠
      TriangularBybit.claimConfidence Scenario.triCfg 1000 Scenario.confData
        [0, 0, 0] 1 := by
  refine ⟨?_, ?_, ?_⟩ <;>
    norm_num [TriangularBybit.calculateConfidence,
      TriangularBybit.claimConfidence, TriangularBybit.claimBookPenalty,
      Scenario.confData, Scenario.triData, Scenario.triCfg, min_def, max_def]

/-- Helper: the end amount computed by the per-leg loop equals the
spec-level leg simulation over the directions and effective prices the loop
produced. -/
theorem runLegs_endAmount_eq (cfg : TriangularBybit.TriConfig) :
    ∀ (legs : List (TriangularBybit.PriceCache × TriangularBybit.Direction))
      (amount : ℚ) (r : TriangularBybit.LegRun),
      TriangularBybit.runLegs cfg legs amount = some r →
      r.endAmount = TriangularBybit.simulateLegs amount
        ((legs.map Prod.snd).zip r.effectivePrices) := by
  intro legs
  induction legs with
  | nil =>
    intro amount r h
    rw [TriangularBybit.runLegs] at h
    injection h with h2
    subst h2
    rfl
  | cons leg rest ih =>
    intro amount r h
    obtain ⟨cached, direction⟩ := leg
    rw [TriangularBybit.runLegs] at h
    rcases hce : TriangularBybit.calculateEffectivePrice cached direction amount
      with _ | ⟨effectivePrice, slippage⟩ <;> rw [hce] at h
    · exact Option.noConfusion h
    · dsimp only at h
      split at h
      · exact Option.noConfusion h
      · cases direction with
        | buy =>
          dsimp only at h
          rcases hrest : TriangularBybit.runLegs cfg rest
              (amount / effectivePrice - amount / effectivePrice *
                TriangularBybit.bybitTakerFee) with _ | r2 <;>
            rw [hrest] at h
          · exact Option.noConfusion h
          · injection h with h2
            subst h2
            simpa only [List.map_cons, List.zip_cons_cons,
              TriangularBybit.simulateLegs, TriangularBybit.bybitTakerFee]
              using ih _ _ hrest
        | sell =>
          dsimp only at h
          rcases hrest : TriangularBybit.runLegs cfg rest
              (amount * effectivePrice - amount * effectivePrice *
                TriangularBybit.bybitTakerFee) with _ | r2 <;>
            rw [hrest] at h
          · exact Option.noConfusion h
          · injection h with h2
            subst h2
            simpa only [List.map_cons, List.zip_cons_cons,
              TriangularBybit.simulateLegs, TriangularBybit.bybitTakerFee]
              using ih _ _ hrest

/-- C5: whenever the triangular evaluation returns an opportunity, its end
amount equals the spec-level simulation (buy: amount / effectivePrice,
sell: amount × effectivePrice, then a 0.10% taker fee off the result,
leg by leg), its raw profit endAmount − startAmount is positive and its
per-leg slippages (before display rounding) sum to at most `maxSlippage`;
conversely, when the leg walk succeeds but the raw profit is ≤ 0 or the
slippage total exceeds `maxSlippage`, the candidate is rejected. -/
theorem c5_triangular_leg_conversion (cfg : TriangularBybit.TriConfig)
    (now : ℤ) (path : TriangularBybit.TriangularPath)
    (pricesData : List TriangularBybit.PriceCache) (startTime : ℤ)
    (oid : String)
    (hlen : path.directions.length ≤ pricesData.length)
    (hmin : 0 < path.minAmount) :
    (∀ opp, TriangularBybit.calculateOpportunity cfg now path pricesData
        startTime oid = some opp →
      opp.startAmount = path.minAmount ∧
      opp.endAmount = TriangularBybit.simulateLegs opp.startAmount
        (opp.directions.zip opp.effectivePrices) ∧
      0 < opp.endAmount - opp.startAmount ∧
      ∃ slips : List ℚ, opp.slippagePerTrade = slips.map (jsToFixed 4) ∧
        slips.sum ≤ cfg.maxSlippage) ∧
    (∀ r, TriangularBybit.runLegs cfg (pricesData.zip path.directions)
        path.minAmount = some r →
      (r.endAmount - path.minAmount ≤ 0 ∨
        cfg.maxSlippage < r.slippagePerTrade.sum) →
      TriangularBybit.calculateOpportunity cfg now path pricesData startTime
        oid = none) := by
  constructor
  · intro opp h
    rw [TriangularBybit.calculateOpportunity] at h
    rcases hr : TriangularBybit.runLegs cfg (pricesData.zip path.directions)
        path.minAmount with _ | r <;> rw [hr] at h
    · exact Option.noConfusion h
    · dsimp only at h
      split at h
      · exact Option.noConfusion h
      next hpp =>
        split at h
        · exact Option.noConfusion h
        next hsl =>
          injection h with h2
          subst h2
          refine ⟨rfl, ?_, ?_, r.slippagePerTrade, rfl, le_of_not_lt hsl⟩
          · have he := runLegs_endAmount_eq cfg _ _ _ hr
            dsimp only
            rw [he, List.map_snd_zip _ _ hlen]
          · dsimp only
            have hpp2 : 0 < (r.endAmount - path.minAmount) / path.minAmount * 100 :=
              lt_of_not_le hpp
            have hq : 0 < (r.endAmount - path.minAmount) / path.minAmount := by
              linarith
            have hx := mul_pos hq hmin
            rwa [div_mul_cancel₀ _ (ne_of_gt hmin)] at hx
  · intro r hr hbad
    rw [TriangularBybit.calculateOpportunity, hr]
    dsimp only
    rcases hbad with hprof | hslip
    · have hq : (r.endAmount - path.minAmount) / path.minAmount ≤ 0 := by
        rw [div_nonpos_iff]
        exact Or.inr ⟨hprof, hmin.le⟩
      rw [if_pos (by linarith : (r.endAmount - path.minAmount) / path.minAmount * 100 ≤ 0)]
    · by_cases hpp : (r.endAmount - path.minAmount) / path.minAmount * 100 ≤ 0
      · rw [if_pos hpp]
      · rw [if_neg hpp]
        rw [if_pos hslip]

set_option maxHeartbeats 1000000 in
/-- Helper: evaluation of the triangular scenario to its literal record. -/
theorem scenario_triCalc_eq :
    TriangularBybit.calculateOpportunity Scenario.triCfg 1000 Scenario.triPath
      Scenario.triData 1000 "id" = some Scenario.triOppLit := by
  norm_num [TriangularBybit.calculateOpportunity, TriangularBybit.runLegs,
    TriangularBybit.calculateEffectivePrice,
    TriangularBybit.calculatePriceFromOrderBook,
    TriangularBybit.calculateConfidence, TriangularBybit.bybitTakerFee,
    Scenario.triCfg, Scenario.triPath, Scenario.triData, Scenario.triOppLit,
    jsToFixed, orDefault, min_def, max_def, round_eq, List.zip, List.zipWith]

/-- C5 witness: the scenario opportunity instantiates every conclusion. -/
theorem c5_triangular_leg_conversion_witness :
    Scenario.triOppLit.startAmount = Scenario.triPath.minAmount ∧
    Scenario.triOppLit.endAmount = TriangularBybit.simulateLegs
      Scenario.triOppLit.startAmount
      (Scenario.triOppLit.directions.zip Scenario.triOppLit.effectivePrices) ∧
    0 < Scenario.triOppLit.endAmount - Scenario.triOppLit.startAmount ∧
    ∃ slips : List ℚ, Scenario.triOppLit.slippagePerTrade =
      slips.map (jsToFixed 4) ∧ slips.sum ≤ Scenario.triCfg.maxSlippage :=
  (c5_triangular_leg_conversion Scenario.triCfg 1000 Scenario.triPath
    Scenario.triData 1000 "id" (by decide)
    (by norm_num [Scenario.triPath])).1 Scenario.triOppLit scenario_triCalc_eq

/-- C4 (amended): on an update-id gap (`data.U > buffer.lastUpdateId + 1`
for a delta that is not already applied) the handler clears the event
buffer, marks it uninitialized and requests a re-snapshot, but it emits NO
event — in particular no `BookInvalidate` — and leaves the per-symbol
replica map untouched until the new snapshot replaces it. Downstream
invalidation happens only in the WebSocket close handler, which emits
`orderBookInvalidate` for every tracked symbol. -/
theorem c4_gap_resnapshot_no_invalidate (exchange : String) (now : ℤ)
    (symbol : String) (data : BinanceAdapter.DepthUpdateTopic)
    (buffer : BinanceAdapter.OrderBookBuffer)
    (states : List (String × BinanceAdapter.OrderBookState))
    (lastEmit : List (String × ℤ)) (st : BinanceAdapter.OrderBookState)
    (hst : (states.find? (fun p => p.1 = symbol)).map Prod.snd = some st)
    (h1 : buffer.lastUpdateId < data.u)
    (h2 : buffer.lastUpdateId + 1 < data.U) :
    ((BinanceAdapter.applyDepthUpdate exchange now symbol data buffer states
        lastEmit).buffer =
      { events := [], isInitialized := false,
        lastUpdateId := buffer.lastUpdateId } ∧
    (BinanceAdapter.applyDepthUpdate exchange now symbol data buffer states
        lastEmit).states = states ∧
    (BinanceAdapter.applyDepthUpdate exchange now symbol data buffer states
        lastEmit).events = [] ∧
    (BinanceAdapter.applyDepthUpdate exchange now symbol data buffer states
        lastEmit).resnapshotRequested = true) ∧
    ∀ (ex sym : String) (ss : List (String × BinanceAdapter.OrderBookState)),
      sym ∈ ss.map Prod.fst →
      BinanceAdapter.AdapterEvent.bookInvalidate ex sym ∈
        BinanceAdapter.closeHandlerEvents ex ss := by
  constructor
  · have happ : BinanceAdapter.applyDepthUpdate exchange now symbol data buffer
        states lastEmit =
        { buffer :=
            { events := [], isInitialized := false,
              lastUpdateId := buffer.lastUpdateId },
          states := states, lastEmit := lastEmit, events := [],
          resnapshotRequested := true } := by
      rw [BinanceAdapter.applyDepthUpdate, hst]
      dsimp only
      rw [if_neg (not_le.mpr h1), if_pos h2]
    rw [happ]
    exact ⟨rfl, rfl, rfl, rfl⟩
  · intro ex sym ss hmem
    obtain ⟨p, hp, hfst⟩ := List.mem_map.mp hmem
    exact List.mem_map.mpr ⟨p, hp, by rw [hfst]⟩

/-- C4 witness: the gap scenario (snapshot through 102, delta with U = 104)
instantiates the amended claim, and the close handler emits the invalidate
event for the tracked symbol. -/
theorem c4_gap_resnapshot_no_invalidate_witness :
    ((BinanceAdapter.applyDepthUpdate "binance" 5000 "BTC/USDT"
        Scenario.gapDelta Scenario.syncedBuffer Scenario.syncedStates
        []).buffer =
      { events := [], isInitialized := false, lastUpdateId := 102 } ∧
    (BinanceAdapter.applyDepthUpdate "binance" 5000 "BTC/USDT"
        Scenario.gapDelta Scenario.syncedBuffer Scenario.syncedStates
        []).states = Scenario.syncedStates ∧
    (BinanceAdapter.applyDepthUpdate "binance" 5000 "BTC/USDT"
        Scenario.gapDelta Scenario.syncedBuffer Scenario.syncedStates
        []).events = [] ∧
    (BinanceAdapter.applyDepthUpdate "binance" 5000 "BTC/USDT"
        Scenario.gapDelta Scenario.syncedBuffer Scenario.syncedStates
        []).resnapshotRequested = true) ∧
    BinanceAdapter.AdapterEvent.bookInvalidate "binance" "BTC/USDT" ∈
      BinanceAdapter.closeHandlerEvents "binance" Scenario.syncedStates := by
  have h := c4_gap_resnapshot_no_invalidate "binance" 5000 "BTC/USDT"
    Scenario.gapDelta Scenario.syncedBuffer Scenario.syncedStates []
    { symbol := "BTC/USDT", bids := fun p => if p = 99 then some 2 else none,
      asks := fun p => if p = 101 then some 2 else none,
      lastUpdateId := 102, timestamp := 4000, isInitialized := true }
    rfl (by decide) (by decide)
  exact ⟨h.1, h.2 "binance" "BTC/USDT" Scenario.syncedStates (by simp [Scenario.syncedStates])⟩

/-- C4 counterexample: on the update-id gap the handler emits no event at
all — downstream receives no `BookInvalidate` for (binance, BTC/USDT), and
the replica entry is still present — contradicting the claim that
consumers receive a `BookInvalidate` on a gap. -/
theorem c4_gap_counterexample :
    (BinanceAdapter.applyDepthUpdate "binance" 5000 "BTC/USDT"
      Scenario.gapDelta Scenario.syncedBuffer Scenario.syncedStates
      []).resnapshotRequested = true ∧
    (BinanceAdapter.applyDepthUpdate "binance" 5000 "BTC/USDT"
      Scenario.gapDelta Scenario.syncedBuffer Scenario.syncedStates
      []).events = [] ∧
    (BinanceAdapter.applyDepthUpdate "binance" 5000 "BTC/USDT"
      Scenario.gapDelta Scenario.syncedBuffer Scenario.syncedStates
      []).states.map Prod.fst = ["BTC/USDT"] ∧
    BinanceAdapter.AdapterEvent.bookInvalidate "binance" "BTC/USDT" ∉
      (BinanceAdapter.applyDepthUpdate "binance" 5000 "BTC/USDT"
        Scenario.gapDelta Scenario.syncedBuffer Scenario.syncedStates
        []).events := by
  refine ⟨?_, ?_, ?_, ?_⟩ <;>
    simp [BinanceAdapter.applyDepthUpdate, Scenario.gapDelta,
      Scenario.syncedBuffer, Scenario.syncedStates]

set_option maxHeartbeats 1000000 in
/-- C3 (amended): in the cross-venue trade flow, when both orders were
submitted and one leg subsequently fails or times out, the catch block
marks the attempt with terminal status FAILED (the PARTIAL status declared
in the TradeStatus enum is never assigned), while the filled leg's order
record is preserved in the attempt, the error is journaled, no rollback is
attempted, and the finally block refreshes balances on both venues and
decrements the active-trades counter back to its pre-trade value. -/
theorem c3_one_leg_failure_marks_failed (tid : String)
    (opportunity : ArbitrageOpportunity) (today : String)
    (oracle : CrossStrategy.ExecOracle) (rm : RiskManager.RiskState)
    (bs : BalanceManager.BalanceState)
    (executedOrders : List CrossStrategy.ExecutedOrder) (e : String)
    (happr : (RiskManager.checkOpportunity (.cross opportunity) today bs
      rm).1.approved = true)
    (hl1 : (BalanceManager.lockBalance tid opportunity.buyExchange
      (RiskManager.quoteOf opportunity.symbol)
      (orDefault opportunity.recommendedTradeSize 100) bs).1 = true)
    (hl2 : (BalanceManager.lockBalance tid opportunity.sellExchange
      (RiskManager.baseOf opportunity.symbol)
      (orDefault opportunity.recommendedTradeSize 100 / opportunity.buyPrice)
      (BalanceManager.lockBalance tid opportunity.buyExchange
        (RiskManager.quoteOf opportunity.symbol)
        (orDefault opportunity.recommendedTradeSize 100) bs).2).1 = true)
    (hord : oracle.executeOrdersResult = .ok executedOrders)
    (hwait : CrossStrategy.firstWaitError oracle executedOrders = some e)
    (hnn : 0 ≤ (RiskManager.checkOpportunity (.cross opportunity) today bs
      rm).2.activeTrades RiskManager.OpportunityType.crossExchange) :
    (CrossStrategy.execute tid opportunity today oracle rm bs).attempt.status =
      CrossStrategy.TradeStatus.failed ∧
    (CrossStrategy.execute tid opportunity today oracle rm bs).attempt.status ≠
      CrossStrategy.TradeStatus.partialFill ∧
    (CrossStrategy.execute tid opportunity today oracle rm bs).attempt.orders =
      executedOrders ∧
    (CrossStrategy.execute tid opportunity today oracle rm bs).attempt.error =
      some e ∧
    (CrossStrategy.execute tid opportunity today oracle rm bs).refreshed =
      [opportunity.buyExchange, opportunity.sellExchange] ∧
    (CrossStrategy.execute tid opportunity today oracle rm bs).rm.activeTrades
        RiskManager.OpportunityType.crossExchange =
      (RiskManager.checkOpportunity (.cross opportunity) today bs
        rm).2.activeTrades RiskManager.OpportunityType.crossExchange := by
  have hexec : CrossStrategy.execute tid opportunity today oracle rm bs =
      CrossStrategy.finallyBlock tid opportunity
        { id := tid, opportunityId := opportunity.id,
          status := CrossStrategy.TradeStatus.failed, orders := executedOrders,
          preTradeState := CrossStrategy.captureTradeState bs opportunity,
          postTradeState := none, profit := none, error := some e }
        (RiskManager.incrementActiveTrades RiskManager.OpportunityType.crossExchange
          (RiskManager.checkOpportunity (.cross opportunity) today bs rm).2)
        (BalanceManager.lockBalance tid opportunity.sellExchange
          (RiskManager.baseOf opportunity.symbol)
          (orDefault opportunity.recommendedTradeSize 100 / opportunity.buyPrice)
          (BalanceManager.lockBalance tid opportunity.buyExchange
            (RiskManager.quoteOf opportunity.symbol)
            (orDefault opportunity.recommendedTradeSize 100) bs).2).2 := by
    rw [CrossStrategy.execute]
    simp only [happr, hl1, hl2, hord, hwait]
    simp
  rw [hexec]
  refine ⟨rfl, (by decide :
    CrossStrategy.TradeStatus.failed ≠ CrossStrategy.TradeStatus.partialFill),
    rfl, rfl, rfl, ?_⟩
  show max 0 ((RiskManager.checkOpportunity (.cross opportunity) today bs
      rm).2.activeTrades RiskManager.OpportunityType.crossExchange + 1 - 1) = _
  rw [add_sub_cancel_right]
  exact max_eq_right hnn

/-- Helper: a risk evaluation never changes the active-trades counters. -/
theorem checkOpportunity_activeTrades_eq (opp : RiskManager.RiskOpportunity)
    (today : String) (bs : BalanceManager.BalanceState)
    (rm : RiskManager.RiskState) :
    (RiskManager.checkOpportunity opp today bs rm).2.activeTrades =
      rm.activeTrades := by
  have hr : (RiskManager.resetDailyCountersIfNeeded today rm).activeTrades =
      rm.activeTrades := by
    unfold RiskManager.resetDailyCountersIfNeeded
    split <;> rfl
  rcases checkOpportunity_state_cases opp today bs rm with he | he <;> rw [he]
  · exact hr
  · exact hr

set_option maxHeartbeats 1000000 in
/-- Helper: the scenario risk evaluation approves the cross opportunity. -/
theorem scenario_riskCheck_approved :
    (RiskManager.checkOpportunity (.cross Scenario.tradeOpp) "2026-10-11"
      Scenario.tradeLedger Scenario.riskFresh).1.approved = true := by
  have hbase : RiskManager.baseOf "BTC/USDT" = "BTC" := rfl
  have hquote : RiskManager.quoteOf "BTC/USDT" = "USDT" := rfl
  have hne1 : "kraken" ≠ "binance" := by decide
  have hne2 : "BTC" ≠ "USDT" := by decide
  have hne3 : "binance" ≠ "kraken" := by decide
  have hne4 : "USDT" ≠ "BTC" := by decide
  norm_num [RiskManager.checkOpportunity, RiskManager.kindOf,
    RiskManager.kindConfig, RiskManager.checkBlacklists,
    RiskManager.checkMinProfit, RiskManager.profitPercentOf,
    RiskManager.checkBalances, hbase, hquote, hne1, hne2, hne3, hne4,
    RiskManager.checkPositionSize,
    RiskManager.checkConcurrentTrades, RiskManager.checkDailyLimits,
    RiskManager.resetDailyCountersIfNeeded,
    BalanceManager.hasAvailableBalance, BalanceManager.getBalance,
    BalanceManager.locksFor, Scenario.tradeLedger, Scenario.riskFresh,
    Scenario.tradingCfg, Scenario.tradeOpp, Scenario.dummyOpportunity,
    orDefault]

/-- Helper: the scenario buy-side lock (binance USDT) is granted. -/
theorem scenario_buyLock_granted :
    (BalanceManager.lockBalance "t1" Scenario.tradeOpp.buyExchange
      (RiskManager.quoteOf Scenario.tradeOpp.symbol)
      (orDefault Scenario.tradeOpp.recommendedTradeSize 100)
      Scenario.tradeLedger).1 = true := by
  have hquote : RiskManager.quoteOf "BTC/USDT" = "USDT" := rfl
  norm_num [hquote, BalanceManager.lockBalance,
    BalanceManager.hasAvailableBalance, BalanceManager.getBalance,
    BalanceManager.locksFor, Scenario.tradeLedger, Scenario.tradeOpp,
    Scenario.dummyOpportunity, orDefault]

/-- Helper: the scenario sell-side lock (kraken BTC) is granted. -/
theorem scenario_sellLock_granted :
    (BalanceManager.lockBalance "t1" Scenario.tradeOpp.sellExchange
      (RiskManager.baseOf Scenario.tradeOpp.symbol)
      (orDefault Scenario.tradeOpp.recommendedTradeSize 100 /
        Scenario.tradeOpp.buyPrice)
      (BalanceManager.lockBalance "t1" Scenario.tradeOpp.buyExchange
        (RiskManager.quoteOf Scenario.tradeOpp.symbol)
        (orDefault Scenario.tradeOpp.recommendedTradeSize 100)
        Scenario.tradeLedger).2).1 = true := by
  have hbase : RiskManager.baseOf "BTC/USDT" = "BTC" := rfl
  have hquote : RiskManager.quoteOf "BTC/USDT" = "USDT" := rfl
  have hkey1 : BalanceManager.getLockKey "binance" "USDT" = "binance:USDT" := rfl
  have hkey2 : BalanceManager.getLockKey "kraken" "BTC" = "kraken:BTC" := rfl
  have hne1 : "kraken" ≠ "binance" := by decide
  have hne2 : "BTC" ≠ "USDT" := by decide
  have hne3 : "binance" ≠ "kraken" := by decide
  have hne4 : "USDT" ≠ "BTC" := by decide
  have hne5 : "kraken:BTC" ≠ "binance:USDT" := by decide
  norm_num [hbase, hquote, hkey1, hkey2, hne1, hne2, hne3, hne4, hne5,
    BalanceManager.lockBalance,
    BalanceManager.hasAvailableBalance, BalanceManager.getBalance,
    BalanceManager.locksFor, Scenario.tradeLedger, Scenario.tradeOpp,
    Scenario.dummyOpportunity, orDefault]

set_option maxHeartbeats 1000000 in
/-- C3 counterexample: buy order filled, sell order times out; the executed
trade attempt ends with status FAILED, not PARTIAL, with both order records
preserved. -/
theorem c3_partial_status_counterexample :
    (CrossStrategy.execute "t1" Scenario.tradeOpp "2026-10-11"
      Scenario.timeoutOracle Scenario.riskFresh
      Scenario.tradeLedger).attempt.status =
      CrossStrategy.TradeStatus.failed ∧
    (CrossStrategy.execute "t1" Scenario.tradeOpp "2026-10-11"
      Scenario.timeoutOracle Scenario.riskFresh
      Scenario.tradeLedger).attempt.status ≠
      CrossStrategy.TradeStatus.partialFill ∧
    (CrossStrategy.execute "t1" Scenario.tradeOpp "2026-10-11"
      Scenario.timeoutOracle Scenario.riskFresh
      Scenario.tradeLedger).attempt.orders =
      [Scenario.buyOrderFilled, Scenario.sellOrderPending] := by
  have hord : Scenario.timeoutOracle.executeOrdersResult =
      Except.ok [Scenario.buyOrderFilled, Scenario.sellOrderPending] := rfl
  have hwait : CrossStrategy.firstWaitError Scenario.timeoutOracle
      [Scenario.buyOrderFilled, Scenario.sellOrderPending] =
      some "Order timeout" := rfl
  refine ⟨?_, ?_, ?_⟩ <;>
    · rw [CrossStrategy.execute]
      simp only [scenario_riskCheck_approved, scenario_buyLock_granted,
        scenario_sellLock_granted, hord, hwait]
      simp [CrossStrategy.finallyBlock]

set_option maxHeartbeats 1000000 in
/-- C3 witness: the amended theorem applied at the timeout scenario. -/
theorem c3_one_leg_failure_marks_failed_witness :
    (CrossStrategy.execute "t1" Scenario.tradeOpp "2026-10-11"
      Scenario.timeoutOracle Scenario.riskFresh
      Scenario.tradeLedger).attempt.error = some "Order timeout" ∧
    (CrossStrategy.execute "t1" Scenario.tradeOpp "2026-10-11"
      Scenario.timeoutOracle Scenario.riskFresh
      Scenario.tradeLedger).refreshed =
      [Scenario.tradeOpp.buyExchange, Scenario.tradeOpp.sellExchange] ∧
    (CrossStrategy.execute "t1" Scenario.tradeOpp "2026-10-11"
      Scenario.timeoutOracle Scenario.riskFresh
      Scenario.tradeLedger).rm.activeTrades
        RiskManager.OpportunityType.crossExchange =
      (RiskManager.checkOpportunity (.cross Scenario.tradeOpp) "2026-10-11"
        Scenario.tradeLedger Scenario.riskFresh).2.activeTrades
        RiskManager.OpportunityType.crossExchange := by
  have h := c3_one_leg_failure_marks_failed "t1" Scenario.tradeOpp "2026-10-11"
    Scenario.timeoutOracle Scenario.riskFresh Scenario.tradeLedger
    [Scenario.buyOrderFilled, Scenario.sellOrderPending] "Order timeout"
    scenario_riskCheck_approved scenario_buyLock_granted
    scenario_sellLock_granted rfl rfl
    (by rw [checkOpportunity_activeTrades_eq]; norm_num [Scenario.riskFresh])
  exact ⟨h.2.2.2.1, h.2.2.2.2.1, h.2.2.2.2.2⟩
end ArbitBot
